import Mathlib

/-! Verification development for `pkg/kube/apisix_route.go` and the fake admin store of
`pkg/apisix/pluginconfig_test.go`.

The Go code is embedded shallowly.

* A Go pointer `*T` is an `Option T` (`none` is the nil pointer).
* A Go `error` value is an `Option GoError` (`none` is the nil error).
* A Go call that may panic returns an `Outcome`: either `ret v` or `panic msg`.
* A Go `map[string]V` is an association list with pairwise distinct keys (`AList`).
* `json.Marshal` of a response struct succeeds exactly when every `json.RawMessage` in it
  passes the scanner of `encoding/json`; its output is kept as the struct that was encoded,
  and a failed call, whose error the handler drops, yields no bytes.
-/

namespace Kube

/-! ## Go runtime model -/

/-- Result of a Go call that either returns a value or panics with a message. -/
inductive Outcome (α : Type) where
  | ret (a : α) : Outcome α
  | panic (msg : String) : Outcome α
  deriving DecidableEq, Repr

/-- Predicate: the call panicked. -/
def Outcome.panics {α : Type} : Outcome α → Bool
  | .ret _ => false
  | .panic _ => true

/-- Sequencing of calls that may panic. -/
def Outcome.bind {α β : Type} : Outcome α → (α → Outcome β) → Outcome β
  | .ret a, f => f a
  | .panic m, _ => .panic m

/-- A Go error value, carrying its message. -/
structure GoError where
  msg : String
  deriving DecidableEq, Repr

/-- Go's `errors.New`. -/
def errorsNew (msg : String) : GoError := ⟨msg⟩

/-- Message of the runtime panic raised when a field is read through a nil pointer. -/
def nilDereference : String := "runtime error: invalid memory address or nil pointer dereference"

/-! ## Constants of package `config` -/

/-- Modelled from the spec: the constant `config.ApisixV2beta2` is declared outside this
file; its value is the group version named in the interface docstrings. -/
def ApisixV2beta2 : String := "apisix.apache.org/v2beta2"

/-- Modelled from the spec: the constant `config.ApisixV2beta3`, declared outside this file. -/
def ApisixV2beta3 : String := "apisix.apache.org/v2beta3"

/-- Modelled from the spec: the constant `config.ApisixV2`, declared outside this file. -/
def ApisixV2 : String := "apisix.apache.org/v2"

/-! ## The versioned resource types

The three `ApisixRoute` struct types are declared in other packages.  The code of this file
reads one field of them, `ResourceVersion` (promoted from the embedded object metadata); the
rest of an object is kept as an uninterpreted payload. -/

/-- Modelled from the spec: `configv2beta2.ApisixRoute`, declared outside this file. -/
structure ApisixRouteV2beta2 where
  ResourceVersion : String
  payload : String
  deriving DecidableEq, Repr

/-- Modelled from the spec: `configv2beta3.ApisixRoute`, declared outside this file. -/
structure ApisixRouteV2beta3 where
  ResourceVersion : String
  payload : String
  deriving DecidableEq, Repr

/-- Modelled from the spec: `configv2.ApisixRoute`, declared outside this file. -/
structure ApisixRouteV2 where
  ResourceVersion : String
  payload : String
  deriving DecidableEq, Repr

/-- A value of Go type `interface{}` as seen by the type switches of this file: a (possibly
nil) pointer to one of the three route types, or a value of any other dynamic type
(including the nil interface), identified by the name of its type. -/
inductive RuntimeObject where
  | v2beta2 (p : Option ApisixRouteV2beta2) : RuntimeObject
  | v2beta3 (p : Option ApisixRouteV2beta3) : RuntimeObject
  | v2 (p : Option ApisixRouteV2) : RuntimeObject
  | other (typeName : String) : RuntimeObject
  deriving DecidableEq, Repr

/-! ## `apisixRoute` -/

/-- The struct `apisixRoute`; omitted fields of a composite literal are nil. -/
structure apisixRoute where
  groupVersion : String
  v2beta2 : Option ApisixRouteV2beta2 := none
  v2beta3 : Option ApisixRouteV2beta3 := none
  v2 : Option ApisixRouteV2 := none
  deriving DecidableEq, Repr

/-- Method `(*apisixRoute).V2beta2`. -/
def apisixRoute.V2beta2 (ar : apisixRoute) : Outcome (Option ApisixRouteV2beta2) :=
  if ar.groupVersion ≠ ApisixV2beta2 then
    .panic "not a apisix.apache.org/v2beta3 route"
  else
    .ret ar.v2beta2

/-- Method `(*apisixRoute).V2beta3`. -/
def apisixRoute.V2beta3 (ar : apisixRoute) : Outcome (Option ApisixRouteV2beta3) :=
  if ar.groupVersion ≠ ApisixV2beta3 then
    .panic "not a apisix.apache.org/v2beta3 route"
  else
    .ret ar.v2beta3

/-- Method `(*apisixRoute).V2`. -/
def apisixRoute.V2 (ar : apisixRoute) : Outcome (Option ApisixRouteV2) :=
  if ar.groupVersion ≠ ApisixV2 then
    .panic "not a apisix.apache.org/v2 route"
  else
    .ret ar.v2

/-- Method `(*apisixRoute).GroupVersion`. -/
def apisixRoute.GroupVersion (ar : apisixRoute) : String :=
  ar.groupVersion

/-- Method `(*apisixRoute).ResourceVersion`.  Reading `.ResourceVersion` through a nil
pointer is a runtime panic. -/
def apisixRoute.ResourceVersion (ar : apisixRoute) : Outcome String :=
  if ar.groupVersion = ApisixV2beta2 then
    ar.V2beta2.bind fun p =>
      match p with
      | some o => .ret o.ResourceVersion
      | none => .panic nilDereference
  else if ar.groupVersion = ApisixV2beta3 then
    ar.V2beta3.bind fun p =>
      match p with
      | some o => .ret o.ResourceVersion
      | none => .panic nilDereference
  else
    ar.V2.bind fun p =>
      match p with
      | some o => .ret o.ResourceVersion
      | none => .panic nilDereference

/-- Function `MustNewApisixRoute`. -/
def MustNewApisixRoute (obj : RuntimeObject) : Outcome apisixRoute :=
  match obj with
  | .v2beta2 ar => .ret { groupVersion := ApisixV2beta2, v2beta2 := ar }
  | .v2beta3 ar => .ret { groupVersion := ApisixV2beta3, v2beta3 := ar }
  | .v2 ar => .ret { groupVersion := ApisixV2, v2 := ar }
  | .other _ => .panic "invalid ApisixRoute type"

/-- Function `NewApisixRoute`; the two components are the two Go return values. -/
def NewApisixRoute (obj : RuntimeObject) : Option apisixRoute × Option GoError :=
  match obj with
  | .v2beta2 ar => (some { groupVersion := ApisixV2beta2, v2beta2 := ar }, none)
  | .v2beta3 ar => (some { groupVersion := ApisixV2beta3, v2beta3 := ar }, none)
  | .v2 ar => (some { groupVersion := ApisixV2, v2 := ar }, none)
  | .other _ => (none, some (errorsNew "invalid ApisixRoute type"))

/-! ## `apisixRouteLister` -/

/-- Modelled from the spec: a version-specific index (`listersv2*.ApisixRouteLister`,
declared outside this file), as the lookup `ApisixRoutes(namespace).Get(name)` it offers,
returning an object pointer and an error. -/
abbrev Index (α : Type) := String → String → Option α × Option GoError

/-- The struct `apisixRouteLister`. -/
structure apisixRouteLister where
  v2beta2Lister : Index ApisixRouteV2beta2
  v2beta3Lister : Index ApisixRouteV2beta3
  v2Lister : Index ApisixRouteV2

/-- Method `(*apisixRouteLister).V2beta3Lister`. -/
def apisixRouteLister.V2beta3Lister (l : apisixRouteLister) : Index ApisixRouteV2beta3 :=
  l.v2beta3Lister

/-- Method `(*apisixRouteLister).V2Lister`. -/
def apisixRouteLister.V2Lister (l : apisixRouteLister) : Index ApisixRouteV2 :=
  l.v2Lister

/-- Method `(*apisixRouteLister).V2beta2`. -/
def apisixRouteLister.V2beta2 (l : apisixRouteLister) (namespace_ name : String) :
    Option apisixRoute × Option GoError :=
  match l.v2beta2Lister namespace_ name with
  | (_, some err) => (none, some err)
  | (ar, none) => (some { groupVersion := ApisixV2beta2, v2beta2 := ar }, none)

/-- Method `(*apisixRouteLister).V2beta3`. -/
def apisixRouteLister.V2beta3 (l : apisixRouteLister) (namespace_ name : String) :
    Option apisixRoute × Option GoError :=
  match l.v2beta3Lister namespace_ name with
  | (_, some err) => (none, some err)
  | (ar, none) => (some { groupVersion := ApisixV2beta3, v2beta3 := ar }, none)

/-- Method `(*apisixRouteLister).V2`. -/
def apisixRouteLister.V2 (l : apisixRouteLister) (namespace_ name : String) :
    Option apisixRoute × Option GoError :=
  match l.v2Lister namespace_ name with
  | (_, some err) => (none, some err)
  | (ar, none) => (some { groupVersion := ApisixV2, v2 := ar }, none)

/-- Function `NewApisixRouteLister`. -/
def NewApisixRouteLister (v2beta2 : Index ApisixRouteV2beta2) (v2beta3 : Index ApisixRouteV2beta3)
    (v2 : Index ApisixRouteV2) : apisixRouteLister :=
  { v2beta2Lister := v2beta2, v2beta3Lister := v2beta3, v2Lister := v2 }

/-! ## Properties of an envelope -/

/-- Number of variant fields of an envelope that are populated (non-nil). -/
def apisixRoute.populated (ar : apisixRoute) : Nat :=
  (if ar.v2beta2.isSome then 1 else 0) + (if ar.v2beta3.isSome then 1 else 0) +
    (if ar.v2.isSome then 1 else 0)

/-- The variant field named by the tag of the envelope is populated. -/
def apisixRoute.tagFieldPopulated (ar : apisixRoute) : Bool :=
  (ar.groupVersion == ApisixV2beta2 && ar.v2beta2.isSome) ||
    (ar.groupVersion == ApisixV2beta3 && ar.v2beta3.isSome) ||
    (ar.groupVersion == ApisixV2 && ar.v2.isSome)

/-- Envelope invariant: exactly one of the three variant fields is populated, and it is the
one named by the tag. -/
def apisixRoute.invariant (ar : apisixRoute) : Prop :=
  ar.populated = 1 ∧ ar.tagFieldPopulated = true

/-- The tag is one of the three group versions and the two variant fields that it does not
name are nil. -/
def apisixRoute.othersNil (ar : apisixRoute) : Prop :=
  (ar.groupVersion = ApisixV2beta2 ∧ ar.v2beta3 = none ∧ ar.v2 = none) ∨
  (ar.groupVersion = ApisixV2beta3 ∧ ar.v2beta2 = none ∧ ar.v2 = none) ∨
  (ar.groupVersion = ApisixV2 ∧ ar.v2beta2 = none ∧ ar.v2beta3 = none)

/-- The value is a nil pointer of one of the three route types. -/
def RuntimeObject.isNilPointer : RuntimeObject → Bool
  | .v2beta2 none => true
  | .v2beta3 none => true
  | .v2 none => true
  | _ => false

/-- The value has one of the three supported dynamic types. -/
def RuntimeObject.supported : RuntimeObject → Bool
  | .other _ => false
  | _ => true

/-- The message contains the name as a contiguous part. -/
def mentions (msg name : String) : Bool :=
  msg.data.tails.any fun t => name.data.isPrefixOf t

end Kube

namespace Apisix

/-! ## Go standard library functions used by the fake admin server

A Go `string` is a Lean `String`; the functions below work on its character list so that
they evaluate by structural recursion. -/

/-- Go's `strings.HasPrefix`. -/
def HasPrefix (s pre : String) : Bool :=
  pre.data.isPrefixOf s.data

/-- Go's `strings.TrimPrefix`. -/
def TrimPrefix (s pre : String) : String :=
  if HasPrefix s pre then ⟨s.data.drop pre.data.length⟩ else s

/-- Splitting of a character list at every occurrence of `sep`. -/
def splitChars (sep : Char) : List Char → List (List Char)
  | [] => [[]]
  | c :: cs =>
    if c = sep then [] :: splitChars sep cs
    else
      match splitChars sep cs with
      | [] => [[c]]
      | seg :: rest => (c :: seg) :: rest

/-- Go's `strings.Split(s, sep)` for a separator of one character. -/
def Split (s : String) (sep : Char) : List String :=
  (splitChars sep s.data).map String.mk

/-- Go's `sort.Strings`: ascending order of the strings compared element by element.  The
result of sorting under a linear order does not depend on the algorithm. -/
def sortStrings (keys : List String) : List String :=
  keys.insertionSort (fun a b => a.data ≤ b.data)

/-- Go's `strconv.Itoa` on a length. -/
def Itoa (n : Nat) : String := Nat.repr n

/-! ## Go's `encoding/json` scanner

`json.Marshal` copies a `json.RawMessage` into its output through `compact`, which runs
the scanner below over the raw bytes and fails when the scanner reports an error or the
input ends before a top-level value is complete. -/

/-- Kinds of entries of the scanner's parse stack. -/
inductive parseKind where
  | parseObjectKey : parseKind
  | parseObjectValue : parseKind
  | parseArrayValue : parseKind
  deriving DecidableEq, Repr

/-- The step functions of the scanner, one constructor per function. -/
inductive scanStep where
  | stateBeginValueOrEmpty | stateBeginValue | stateBeginStringOrEmpty | stateBeginString
  | stateEndValue | stateEndTop
  | stateInString | stateInStringEsc | stateInStringEscU | stateInStringEscU1
  | stateInStringEscU12 | stateInStringEscU123
  | stateNeg | state1 | state0 | stateDot | stateDot0 | stateE | stateESign | stateE0
  | stateT | stateTr | stateTru | stateF | stateFa | stateFal | stateFals
  | stateN | stateNu | stateNul
  | stateError
  deriving DecidableEq, Repr

/-- The struct `scanner`: the current step function, the parse stack (innermost entry
first), whether a top-level value has been completed, and whether an error was recorded. -/
structure scanner where
  step : scanStep := .stateBeginValue
  parseState : List parseKind := []
  endTop : Bool := false
  err : Bool := false
  deriving DecidableEq, Repr

/-- The constant `maxNestingDepth`. -/
def maxNestingDepth : Nat := 10000

/-- Function `isSpace`: space, tab, carriage return or line feed. -/
def isSpace (c : Char) : Bool :=
  c.toNat = 32 || c.toNat = 9 || c.toNat = 13 || c.toNat = 10

/-- A decimal digit. -/
def isDigit (c : Char) : Bool :=
  48 ≤ c.toNat && c.toNat ≤ 57

/-- A hexadecimal digit, as tested in the `\u` escape states. -/
def isHex (c : Char) : Bool :=
  isDigit c || (97 ≤ c.toNat && c.toNat ≤ 102) || (65 ≤ c.toNat && c.toNat ≤ 70)

/-- Method `(*scanner).error`: records the error and makes every later step fail. -/
def scanner.error (s : scanner) : scanner :=
  { s with step := .stateError, err := true }

/-- Method `(*scanner).pushParseState`. -/
def scanner.pushParseState (s : scanner) (newParseState : parseKind) : scanner :=
  let s1 := { s with parseState := newParseState :: s.parseState }
  if s1.parseState.length ≤ maxNestingDepth then s1 else s1.error

/-- Method `(*scanner).popParseState`. -/
def scanner.popParseState (s : scanner) : scanner :=
  match s.parseState.tail with
  | [] => { s with parseState := [], step := .stateEndTop, endTop := true }
  | p :: rest => { s with parseState := p :: rest, step := .stateEndValue }

/-- Function `stateEndTop`: after the top-level value only white space may follow. -/
def stateEndTop (s : scanner) (c : Char) : scanner :=
  if !isSpace c then s.error else s

/-- Function `stateEndValue`: the state after a value has been completed. -/
def stateEndValue (s : scanner) (c : Char) : scanner :=
  match s.parseState with
  | [] => stateEndTop { s with step := .stateEndTop, endTop := true } c
  | ps :: rest =>
    if isSpace c then { s with step := .stateEndValue }
    else
      match ps with
      | .parseObjectKey =>
        if c = ':' then
          { s with parseState := .parseObjectValue :: rest, step := .stateBeginValue }
        else s.error
      | .parseObjectValue =>
        if c = ',' then
          { s with parseState := .parseObjectKey :: rest, step := .stateBeginString }
        else if c = '}' then s.popParseState
        else s.error
      | .parseArrayValue =>
        if c = ',' then { s with step := .stateBeginValue }
        else if c = ']' then s.popParseState
        else s.error

/-- Function `stateBeginValue`: the state at the beginning of a value. -/
def stateBeginValue (s : scanner) (c : Char) : scanner :=
  if isSpace c then s
  else if c = '{' then
    { s with step := .stateBeginStringOrEmpty }.pushParseState .parseObjectKey
  else if c = '[' then
    { s with step := .stateBeginValueOrEmpty }.pushParseState .parseArrayValue
  else if c.toNat = 34 then { s with step := .stateInString }
  else if c = '-' then { s with step := .stateNeg }
  else if c = '0' then { s with step := .state0 }
  else if c = 't' then { s with step := .stateT }
  else if c = 'f' then { s with step := .stateF }
  else if c = 'n' then { s with step := .stateN }
  else if 49 ≤ c.toNat && c.toNat ≤ 57 then { s with step := .state1 }
  else s.error

/-- Function `stateBeginValueOrEmpty`: the state after reading an opening bracket. -/
def stateBeginValueOrEmpty (s : scanner) (c : Char) : scanner :=
  if isSpace c then s
  else if c = ']' then stateEndValue s c
  else stateBeginValue s c

/-- Function `stateBeginString`: the state after a comma inside an object. -/
def stateBeginString (s : scanner) (c : Char) : scanner :=
  if isSpace c then s
  else if c.toNat = 34 then { s with step := .stateInString }
  else s.error

/-- Function `stateBeginStringOrEmpty`: the state after reading an opening brace. -/
def stateBeginStringOrEmpty (s : scanner) (c : Char) : scanner :=
  if isSpace c then s
  else if c = '}' then
    stateEndValue { s with parseState := .parseObjectValue :: s.parseState.tail } c
  else stateBeginString s c

/-- Function `state0`: after a leading zero, or after the integer digits of a number. -/
def state0 (s : scanner) (c : Char) : scanner :=
  if c = '.' then { s with step := .stateDot }
  else if c = 'e' || c = 'E' then { s with step := .stateE }
  else stateEndValue s c

/-- Function `stateESign`: after the sign of an exponent. -/
def stateESign (s : scanner) (c : Char) : scanner :=
  if isDigit c then { s with step := .stateE0 } else s.error

/-- The step function held in `s.step`, applied to the next character. -/
def scanner.next (s : scanner) (c : Char) : scanner :=
  match s.step with
  | .stateBeginValueOrEmpty => stateBeginValueOrEmpty s c
  | .stateBeginValue => stateBeginValue s c
  | .stateBeginStringOrEmpty => stateBeginStringOrEmpty s c
  | .stateBeginString => stateBeginString s c
  | .stateEndValue => stateEndValue s c
  | .stateEndTop => stateEndTop s c
  | .stateInString =>
    if c.toNat = 34 then { s with step := .stateEndValue }
    else if c.toNat = 92 then { s with step := .stateInStringEsc }
    else if c.toNat < 32 then s.error
    else s
  | .stateInStringEsc =>
    if c = 'b' || c = 'f' || c = 'n' || c = 'r' || c = 't' || c.toNat = 92 || c = '/' ||
        c.toNat = 34 then
      { s with step := .stateInString }
    else if c = 'u' then { s with step := .stateInStringEscU }
    else s.error
  | .stateInStringEscU => if isHex c then { s with step := .stateInStringEscU1 } else s.error
  | .stateInStringEscU1 => if isHex c then { s with step := .stateInStringEscU12 } else s.error
  | .stateInStringEscU12 =>
    if isHex c then { s with step := .stateInStringEscU123 } else s.error
  | .stateInStringEscU123 => if isHex c then { s with step := .stateInString } else s.error
  | .stateNeg =>
    if c = '0' then { s with step := .state0 }
    else if 49 ≤ c.toNat && c.toNat ≤ 57 then { s with step := .state1 }
    else s.error
  | .state1 => if isDigit c then { s with step := .state1 } else state0 s c
  | .state0 => state0 s c
  | .stateDot => if isDigit c then { s with step := .stateDot0 } else s.error
  | .stateDot0 =>
    if isDigit c then s
    else if c = 'e' || c = 'E' then { s with step := .stateE }
    else stateEndValue s c
  | .stateE =>
    if c = '+' || c = '-' then { s with step := .stateESign } else stateESign s c
  | .stateESign => stateESign s c
  | .stateE0 => if isDigit c then s else stateEndValue s c
  | .stateT => if c = 'r' then { s with step := .stateTr } else s.error
  | .stateTr => if c = 'u' then { s with step := .stateTru } else s.error
  | .stateTru => if c = 'e' then { s with step := .stateEndValue } else s.error
  | .stateF => if c = 'a' then { s with step := .stateFa } else s.error
  | .stateFa => if c = 'l' then { s with step := .stateFal } else s.error
  | .stateFal => if c = 's' then { s with step := .stateFals } else s.error
  | .stateFals => if c = 'e' then { s with step := .stateEndValue } else s.error
  | .stateN => if c = 'u' then { s with step := .stateNu } else s.error
  | .stateNu => if c = 'l' then { s with step := .stateNul } else s.error
  | .stateNul => if c = 'l' then { s with step := .stateEndValue } else s.error
  | .stateError => s.error

/-- Method `(*scanner).eof`: `true` when the input may end here (`scanEnd`). -/
def scanner.eof (s : scanner) : Bool :=
  if s.err then false
  else if s.endTop then true
  else (s.next ' ').endTop

/-- Whether `compact` accepts the raw bytes: the scanner, started by `reset`, steps over
every character without error and accepts the end of input. -/
def jsonValid (data : String) : Bool :=
  (data.data.foldl scanner.next {}).eof

/-! ## Wire types of the fake server

The struct types `fakeListResp`, `fakeNode`, `fakeItem` and `fakeCreateResp` are declared in
another file of the package; their fields are the ones the handler sets. -/

/-- The struct `fakeItem`; `json.RawMessage` is the raw document. -/
structure fakeItem where
  Key : String
  Value : String
  deriving DecidableEq, Repr

/-- The struct `fakeNode`. -/
structure fakeNode where
  Key : String
  Items : List fakeItem := []
  deriving DecidableEq, Repr

/-- The struct `fakeListResp`. -/
structure fakeListResp where
  Count : String
  Node : fakeNode
  deriving DecidableEq, Repr

/-- The struct `fakeCreateResp`. -/
structure fakeCreateResp where
  Action : String
  Node : fakeItem
  deriving DecidableEq, Repr

/-- What the handler hands to `w.Write`: the JSON encoding of a response struct, kept as the
struct that `json.Marshal` encoded, or a string written as is (`raw ""` is a write of no
bytes). -/
inductive Payload where
  | listResp (resp : fakeListResp) : Payload
  | createResp (resp : fakeCreateResp) : Payload
  | raw (output : String) : Payload
  deriving DecidableEq, Repr

/-- The statement `data, _ := json.Marshal(resp)` for a `fakeListResp`: the encoding of
`resp` when every raw value of its items passes `compact`; otherwise `json.Marshal` fails,
the error is dropped and `data` holds no bytes. -/
def marshalListResp (resp : fakeListResp) : Payload :=
  if resp.Node.Items.all (fun item => jsonValid item.Value) then .listResp resp else .raw ""

/-- The statement `data, _ = json.Marshal(resp)` for a `fakeCreateResp`: the encoding of
`resp` when the raw value of its node passes `compact`; no bytes otherwise. -/
def marshalCreateResp (resp : fakeCreateResp) : Payload :=
  if jsonValid resp.Node.Value then .createResp resp else .raw ""

/-- The request fields the handler reads: `r.Method`, `r.URL.Path` and the bytes of `r.Body`. -/
structure Request where
  Method : String
  Path : String
  Body : String
  deriving DecidableEq, Repr

/-- The `http.ResponseWriter` as a recorder: the status code of the first `WriteHeader`
(`none` while no header has been written) and the payloads written, in order. -/
structure ResponseWriter where
  code : Option Nat := none
  body : List Payload := []
  deriving DecidableEq, Repr

/-- Method `WriteHeader`: only the first call of a request takes effect. -/
def ResponseWriter.WriteHeader (w : ResponseWriter) (statusCode : Nat) : ResponseWriter :=
  match w.code with
  | some _ => w
  | none => { w with code := some statusCode }

/-- Method `Write`: writes the header with status 200 if none was written, then the data. -/
def ResponseWriter.Write (w : ResponseWriter) (data : Payload) : ResponseWriter :=
  let w1 := w.WriteHeader 200
  { w1 with body := w1.body ++ [data] }

/-- The struct `fakeAPISIXPluginConfigSrv`: a Go map from store key to raw document. -/
structure fakeAPISIXPluginConfigSrv where
  pluginConfig : AList (fun _ : String => String)

/-- Map read `srv.pluginConfig[key]`: the zero value when the key is absent. -/
def fakeAPISIXPluginConfigSrv.get (srv : fakeAPISIXPluginConfigSrv) (key : String) : String :=
  (srv.pluginConfig.lookup key).getD ""

/-- The items of a list response: the keys of the map, sorted, each with its value. -/
def fakeAPISIXPluginConfigSrv.items (srv : fakeAPISIXPluginConfigSrv) : List fakeItem :=
  (sortStrings srv.pluginConfig.keys).map fun key => { Key := key, Value := srv.get key }

/-- Method `(*fakeAPISIXPluginConfigSrv).ServeHTTP`: the server after the request and what
was written to the response.  The DELETE branch has no `return`, so control continues to the
PUT and PATCH tests. -/
def fakeAPISIXPluginConfigSrv.ServeHTTP (srv : fakeAPISIXPluginConfigSrv) (r : Request) :
    fakeAPISIXPluginConfigSrv × ResponseWriter :=
  let w : ResponseWriter := {}
  if !HasPrefix r.Path "/apisix/admin/plugin_configs" then
    (srv, w.WriteHeader 404)
  else if r.Method = "GET" then
    let resp : fakeListResp :=
      { Count := Itoa srv.pluginConfig.entries.length
        Node := { Key := "/apisix/plugin_configs", Items := srv.items } }
    (srv, (w.WriteHeader 200).Write (marshalListResp resp))
  else
    let afterDelete : fakeAPISIXPluginConfigSrv × ResponseWriter :=
      if r.Method = "DELETE" then
        let id := "/apisix/plugin_configs/" ++ TrimPrefix r.Path "/apisix/admin/plugin_configs/"
        if (srv.pluginConfig.lookup id).isSome then
          ({ pluginConfig := srv.pluginConfig.erase id }, w.WriteHeader 200)
        else
          (srv, w.WriteHeader 404)
      else (srv, w)
    let srv1 := afterDelete.1
    let w1 := afterDelete.2
    if r.Method = "PUT" then
      let paths := Split r.Path '/'
      let key := "/apisix/plugin_configs/" ++ paths.getLastD ""
      let data := r.Body
      let srv2 : fakeAPISIXPluginConfigSrv := { pluginConfig := srv1.pluginConfig.insert key data }
      let resp : fakeCreateResp := { Action := "create", Node := { Key := key, Value := data } }
      (srv2, (w1.WriteHeader 201).Write (marshalCreateResp resp))
    else if r.Method = "PATCH" then
      let id := "/apisix/plugin_configs/" ++ TrimPrefix r.Path "/apisix/admin/plugin_configs/"
      if (srv1.pluginConfig.lookup id).isSome then
        let data := r.Body
        let srv2 : fakeAPISIXPluginConfigSrv := { pluginConfig := srv1.pluginConfig.insert id data }
        let output := "\x7b\"action\": \"compareAndSwap\", \"node\": \x7b\"key\": \"" ++ id ++
          "\", \"value\": " ++ data ++ "\x7d\x7d"
        (srv2, (w1.WriteHeader 200).Write (.raw output))
      else
        (srv1, w1.WriteHeader 404)
    else
      (srv1, w1)

/-- The server started by `runFakePluginConfigSrv`: an empty map. -/
def runFakePluginConfigSrv : fakeAPISIXPluginConfigSrv :=
  { pluginConfig := ∅ }

/-- Every value stored in the map is a valid JSON document. -/
def fakeAPISIXPluginConfigSrv.valuesValid (srv : fakeAPISIXPluginConfigSrv) : Bool :=
  srv.pluginConfig.entries.all fun e => jsonValid e.2

/-- The server after a sequence of requests, served one after the other. -/
def fakeAPISIXPluginConfigSrv.serveAll (srv : fakeAPISIXPluginConfigSrv)
    (reqs : List Request) : fakeAPISIXPluginConfigSrv :=
  reqs.foldl (fun s r => (s.ServeHTTP r).1) srv

/-- Form of an item key: the collection key, a slash, and an identifier without a slash. -/
def itemKeyForm (key : String) : Prop :=
  ∃ id : String, '/' ∉ id.data ∧ key = "/apisix/plugin_configs" ++ "/" ++ id

end Apisix

/-! # Theorems about the versioned envelope and the lister -/

namespace Kube

/-- The three group-version constants are pairwise distinct. -/
theorem groupVersions_distinct :
    ApisixV2beta2 ≠ ApisixV2beta3 ∧ ApisixV2beta2 ≠ ApisixV2 ∧ ApisixV2beta3 ≠ ApisixV2 := by
  decide

/-- C1: version isolation.  For every envelope (in particular one tagged with one of the
three group versions), each accessor returns the field of its own version when the tag is
that version and panics, returning nothing, when the tag is anything else; an envelope
tagged v2 panics in `V2beta3`. -/
theorem accessor_version_isolation (ar : apisixRoute) :
    (ar.groupVersion = ApisixV2beta2 → ar.V2beta2 = .ret ar.v2beta2) ∧
    (ar.groupVersion ≠ ApisixV2beta2 → ∃ msg, ar.V2beta2 = .panic msg) ∧
    (ar.groupVersion = ApisixV2beta3 → ar.V2beta3 = .ret ar.v2beta3) ∧
    (ar.groupVersion ≠ ApisixV2beta3 → ∃ msg, ar.V2beta3 = .panic msg) ∧
    (ar.groupVersion = ApisixV2 → ar.V2 = .ret ar.v2) ∧
    (ar.groupVersion ≠ ApisixV2 → ∃ msg, ar.V2 = .panic msg) ∧
    (ar.groupVersion = ApisixV2 → ar.V2beta3.panics = true) := by
  refine ⟨?_, ?_, ?_, ?_, ?_, ?_, ?_⟩
  · intro h
    simp [apisixRoute.V2beta2, h]
  · intro h
    simp [apisixRoute.V2beta2, h]
  · intro h
    simp [apisixRoute.V2beta3, h]
  · intro h
    simp [apisixRoute.V2beta3, h]
  · intro h
    simp [apisixRoute.V2, h]
  · intro h
    simp [apisixRoute.V2, h]
  · intro h
    have hne : ar.groupVersion ≠ ApisixV2beta3 := by
      rw [h]
      exact fun e => groupVersions_distinct.2.2 e.symm
    simp [apisixRoute.V2beta3, hne, Outcome.panics]

/-- Witness of C1 at an envelope tagged v2. -/
theorem accessor_version_isolation_witness :
    let ar : apisixRoute := { groupVersion := ApisixV2, v2 := some ⟨"7", "spec"⟩ }
    ar.V2 = .ret (some ⟨"7", "spec"⟩) ∧ ar.V2beta3.panics = true ∧ ar.V2beta2.panics = true := by
  intro ar
  have h := accessor_version_isolation ar
  refine ⟨h.2.2.2.2.1 rfl, h.2.2.2.2.2.2 rfl, ?_⟩
  decide

/-- C2: `NewApisixRoute` dispatches on the dynamic type of its argument.  For a pointer of
one of the three versions it returns a nil error and an envelope whose `GroupVersion` is that
version and whose matching accessor returns the pointer itself; for any other type it
returns a nil envelope and the error "invalid ApisixRoute type". -/
theorem NewApisixRoute_dispatch :
    (∀ p, ∃ ar, NewApisixRoute (.v2beta2 p) = (some ar, none) ∧
      ar.GroupVersion = "apisix.apache.org/v2beta2" ∧ ar.V2beta2 = .ret p) ∧
    (∀ p, ∃ ar, NewApisixRoute (.v2beta3 p) = (some ar, none) ∧
      ar.GroupVersion = "apisix.apache.org/v2beta3" ∧ ar.V2beta3 = .ret p) ∧
    (∀ p, ∃ ar, NewApisixRoute (.v2 p) = (some ar, none) ∧
      ar.GroupVersion = "apisix.apache.org/v2" ∧ ar.V2 = .ret p) ∧
    (∀ t, NewApisixRoute (.other t) = (none, some ⟨"invalid ApisixRoute type"⟩)) := by
  refine ⟨fun p => ⟨_, rfl, rfl, ?_⟩, fun p => ⟨_, rfl, rfl, ?_⟩, fun p => ⟨_, rfl, rfl, ?_⟩,
    fun t => rfl⟩
  · simp [apisixRoute.V2beta2]
  · simp [apisixRoute.V2beta3]
  · simp [apisixRoute.V2]

/-- Facts shared by the envelopes built from a pointer of each version. -/
theorem built_envelope_facts :
    (∀ p : Option ApisixRouteV2beta2,
      ({ groupVersion := ApisixV2beta2, v2beta2 := p } : apisixRoute).othersNil ∧
      (p.isSome = true →
        ({ groupVersion := ApisixV2beta2, v2beta2 := p } : apisixRoute).invariant)) ∧
    (∀ p : Option ApisixRouteV2beta3,
      ({ groupVersion := ApisixV2beta3, v2beta3 := p } : apisixRoute).othersNil ∧
      (p.isSome = true →
        ({ groupVersion := ApisixV2beta3, v2beta3 := p } : apisixRoute).invariant)) ∧
    (∀ p : Option ApisixRouteV2,
      ({ groupVersion := ApisixV2, v2 := p } : apisixRoute).othersNil ∧
      (p.isSome = true → ({ groupVersion := ApisixV2, v2 := p } : apisixRoute).invariant)) := by
  refine ⟨fun p => ⟨Or.inl ⟨rfl, rfl, rfl⟩, fun hp => ?_⟩,
    fun p => ⟨Or.inr (Or.inl ⟨rfl, rfl, rfl⟩), fun hp => ?_⟩,
    fun p => ⟨Or.inr (Or.inr ⟨rfl, rfl, rfl⟩), fun hp => ?_⟩⟩
  · simp [apisixRoute.invariant, apisixRoute.populated, apisixRoute.tagFieldPopulated, hp]
  · simp [apisixRoute.invariant, apisixRoute.populated, apisixRoute.tagFieldPopulated, hp]
  · simp [apisixRoute.invariant, apisixRoute.populated, apisixRoute.tagFieldPopulated, hp]

/-- C3, counterexample: given a nil pointer of type v2beta2, `NewApisixRoute` returns, with
a nil error, an envelope tagged v2beta2 in which no variant field is populated, so the
invariant "exactly one field populated" fails. -/
theorem envelope_invariant_counterexample :
    NewApisixRoute (.v2beta2 none) = (some { groupVersion := ApisixV2beta2 }, none) ∧
    ({ groupVersion := ApisixV2beta2 } : apisixRoute).populated = 0 ∧
    ¬ ({ groupVersion := ApisixV2beta2 } : apisixRoute).invariant := by
  refine ⟨rfl, rfl, ?_⟩
  intro h
  exact absurd h.1 (by decide)

/-- C3, amended: every envelope returned by `NewApisixRoute` without error, by
`MustNewApisixRoute` without panic, or by a lister method without error carries one of the
three tags and has the two variant fields not named by the tag nil; when the pointer passed
in (or found by the index) is not nil, exactly one variant field is populated and it is the
one named by the tag. -/
theorem envelope_invariant_amended :
    (∀ obj ar, NewApisixRoute obj = (some ar, none) ∨ MustNewApisixRoute obj = .ret ar →
      ar.othersNil ∧ (obj.isNilPointer = false → ar.invariant)) ∧
    (∀ (l : apisixRouteLister) (ns name : String) (ar : apisixRoute),
      (l.V2beta2 ns name = (some ar, none) →
        ar.othersNil ∧ ((l.v2beta2Lister ns name).1.isSome = true → ar.invariant)) ∧
      (l.V2beta3 ns name = (some ar, none) →
        ar.othersNil ∧ ((l.v2beta3Lister ns name).1.isSome = true → ar.invariant)) ∧
      (l.V2 ns name = (some ar, none) →
        ar.othersNil ∧ ((l.v2Lister ns name).1.isSome = true → ar.invariant))) := by
  obtain ⟨f1, f2, f3⟩ := built_envelope_facts
  constructor
  · intro obj ar h
    cases obj with
    | v2beta2 p =>
      have har : ar = { groupVersion := ApisixV2beta2, v2beta2 := p } := by
        rcases h with h | h <;> simp [NewApisixRoute, MustNewApisixRoute] at h <;> exact h.symm
      subst har
      refine ⟨(f1 p).1, fun hp => (f1 p).2 ?_⟩
      cases p <;> simp [RuntimeObject.isNilPointer] at hp ⊢
    | v2beta3 p =>
      have har : ar = { groupVersion := ApisixV2beta3, v2beta3 := p } := by
        rcases h with h | h <;> simp [NewApisixRoute, MustNewApisixRoute] at h <;> exact h.symm
      subst har
      refine ⟨(f2 p).1, fun hp => (f2 p).2 ?_⟩
      cases p <;> simp [RuntimeObject.isNilPointer] at hp ⊢
    | v2 p =>
      have har : ar = { groupVersion := ApisixV2, v2 := p } := by
        rcases h with h | h <;> simp [NewApisixRoute, MustNewApisixRoute] at h <;> exact h.symm
      subst har
      refine ⟨(f3 p).1, fun hp => (f3 p).2 ?_⟩
      cases p <;> simp [RuntimeObject.isNilPointer] at hp ⊢
    | other t =>
      rcases h with h | h <;> simp [NewApisixRoute, MustNewApisixRoute] at h
  · intro l ns name ar
    refine ⟨?_, ?_, ?_⟩
    · intro h
      unfold apisixRouteLister.V2beta2 at h
      rcases hq : l.v2beta2Lister ns name with ⟨p, e⟩
      rw [hq] at h
      cases e with
      | some err => simp at h
      | none =>
        simp at h
        subst h
        exact ⟨(f1 p).1, fun hp => (f1 p).2 hp⟩
    · intro h
      unfold apisixRouteLister.V2beta3 at h
      rcases hq : l.v2beta3Lister ns name with ⟨p, e⟩
      rw [hq] at h
      cases e with
      | some err => simp at h
      | none =>
        simp at h
        subst h
        exact ⟨(f2 p).1, fun hp => (f2 p).2 hp⟩
    · intro h
      unfold apisixRouteLister.V2 at h
      rcases hq : l.v2Lister ns name with ⟨p, e⟩
      rw [hq] at h
      cases e with
      | some err => simp at h
      | none =>
        simp at h
        subst h
        exact ⟨(f3 p).1, fun hp => (f3 p).2 hp⟩

/-- Witness of the amended C3 at a non-nil v2 object. -/
theorem envelope_invariant_amended_witness :
    ({ groupVersion := ApisixV2, v2 := some ⟨"7", "spec"⟩ } : apisixRoute).othersNil ∧
    ({ groupVersion := ApisixV2, v2 := some ⟨"7", "spec"⟩ } : apisixRoute).invariant :=
  have h := envelope_invariant_amended.1 (.v2 (some ⟨"7", "spec"⟩))
    { groupVersion := ApisixV2, v2 := some ⟨"7", "spec"⟩ } (Or.inl rfl)
  ⟨h.1, h.2 rfl⟩

/-- `ResourceVersion` of the envelope built around a non-nil pointer of each version. -/
theorem ResourceVersion_built :
    (∀ o : ApisixRouteV2beta2,
      ({ groupVersion := ApisixV2beta2, v2beta2 := some o } : apisixRoute).ResourceVersion =
        .ret o.ResourceVersion) ∧
    (∀ o : ApisixRouteV2beta3,
      ({ groupVersion := ApisixV2beta3, v2beta3 := some o } : apisixRoute).ResourceVersion =
        .ret o.ResourceVersion) ∧
    (∀ o : ApisixRouteV2,
      ({ groupVersion := ApisixV2, v2 := some o } : apisixRoute).ResourceVersion =
        .ret o.ResourceVersion) := by
  obtain ⟨d1, d2, d3⟩ := groupVersions_distinct
  refine ⟨fun o => ?_, fun o => ?_, fun o => ?_⟩
  · simp [apisixRoute.ResourceVersion, apisixRoute.V2beta2, Outcome.bind]
  · simp [apisixRoute.ResourceVersion, apisixRoute.V2beta3, Outcome.bind, Ne.symm d1]
  · simp [apisixRoute.ResourceVersion, apisixRoute.V2, Outcome.bind, Ne.symm d2, Ne.symm d3]

/-- C4: for an envelope built by `NewApisixRoute` or `MustNewApisixRoute` from a non-nil
object of a supported version, or by a lister method from a found (non-nil) object,
`ResourceVersion` returns the `ResourceVersion` field of that object; it returns and
does not panic, so the mismatch panic of the accessor it calls is not reached. -/
theorem ResourceVersion_of_constructed :
    (∀ o : ApisixRouteV2beta2, ∃ ar, NewApisixRoute (.v2beta2 (some o)) = (some ar, none) ∧
      MustNewApisixRoute (.v2beta2 (some o)) = .ret ar ∧
      ar.V2beta2 = .ret (some o) ∧ ar.ResourceVersion = .ret o.ResourceVersion) ∧
    (∀ o : ApisixRouteV2beta3, ∃ ar, NewApisixRoute (.v2beta3 (some o)) = (some ar, none) ∧
      MustNewApisixRoute (.v2beta3 (some o)) = .ret ar ∧
      ar.V2beta3 = .ret (some o) ∧ ar.ResourceVersion = .ret o.ResourceVersion) ∧
    (∀ o : ApisixRouteV2, ∃ ar, NewApisixRoute (.v2 (some o)) = (some ar, none) ∧
      MustNewApisixRoute (.v2 (some o)) = .ret ar ∧
      ar.V2 = .ret (some o) ∧ ar.ResourceVersion = .ret o.ResourceVersion) ∧
    (∀ (l : apisixRouteLister) (ns name : String),
      (∀ o, l.v2beta2Lister ns name = (some o, none) →
        ∃ ar, l.V2beta2 ns name = (some ar, none) ∧
          ar.V2beta2 = .ret (some o) ∧ ar.ResourceVersion = .ret o.ResourceVersion) ∧
      (∀ o, l.v2beta3Lister ns name = (some o, none) →
        ∃ ar, l.V2beta3 ns name = (some ar, none) ∧
          ar.V2beta3 = .ret (some o) ∧ ar.ResourceVersion = .ret o.ResourceVersion) ∧
      (∀ o, l.v2Lister ns name = (some o, none) →
        ∃ ar, l.V2 ns name = (some ar, none) ∧
          ar.V2 = .ret (some o) ∧ ar.ResourceVersion = .ret o.ResourceVersion)) := by
  obtain ⟨r1, r2, r3⟩ := ResourceVersion_built
  refine ⟨fun o => ⟨_, rfl, rfl, ?_, r1 o⟩, fun o => ⟨_, rfl, rfl, ?_, r2 o⟩,
    fun o => ⟨_, rfl, rfl, ?_, r3 o⟩, fun l ns name => ⟨fun o h => ?_, fun o h => ?_,
      fun o h => ?_⟩⟩
  · simp [apisixRoute.V2beta2]
  · simp [apisixRoute.V2beta3]
  · simp [apisixRoute.V2]
  · refine ⟨{ groupVersion := ApisixV2beta2, v2beta2 := some o }, ?_, ?_, r1 o⟩
    · simp [apisixRouteLister.V2beta2, h]
    · simp [apisixRoute.V2beta2]
  · refine ⟨{ groupVersion := ApisixV2beta3, v2beta3 := some o }, ?_, ?_, r2 o⟩
    · simp [apisixRouteLister.V2beta3, h]
    · simp [apisixRoute.V2beta3]
  · refine ⟨{ groupVersion := ApisixV2, v2 := some o }, ?_, ?_, r3 o⟩
    · simp [apisixRouteLister.V2, h]
    · simp [apisixRoute.V2]

/-- Witness of C4: a lister whose v2 index holds an object with resource version "42". -/
theorem ResourceVersion_of_constructed_witness :
    ∃ ar, (NewApisixRouteLister (fun _ _ => (none, some ⟨"not found"⟩))
        (fun _ _ => (none, some ⟨"not found"⟩))
        (fun _ _ => (some ⟨"42", "spec"⟩, none))).V2 "default" "r1" = (some ar, none) ∧
      ar.V2 = .ret (some ⟨"42", "spec"⟩) ∧ ar.ResourceVersion = .ret "42" :=
  (ResourceVersion_of_constructed.2.2.2
    (NewApisixRouteLister (fun _ _ => (none, some ⟨"not found"⟩))
      (fun _ _ => (none, some ⟨"not found"⟩))
      (fun _ _ => (some ⟨"42", "spec"⟩, none))) "default" "r1").2.2 ⟨"42", "spec"⟩ rfl

/-- C5: the lister built by `NewApisixRouteLister a b c`.  `V2beta2` depends on index `a`
only, `V2beta3` on `b` only, `V2` on `c` only; an error of the queried index is returned
unchanged with a nil envelope; an object found without error is returned, with a nil error,
in an envelope tagged with the version of the method, whose matching accessor returns the
found object. -/
theorem lister_lookup (a : Index ApisixRouteV2beta2) (b : Index ApisixRouteV2beta3)
    (c : Index ApisixRouteV2) (ns name : String) :
    ((∀ b1 c1, (NewApisixRouteLister a b1 c1).V2beta2 ns name =
        (NewApisixRouteLister a b c).V2beta2 ns name) ∧
      (∀ p err, a ns name = (p, some err) →
        (NewApisixRouteLister a b c).V2beta2 ns name = (none, some err)) ∧
      (∀ p, a ns name = (p, none) → ∃ ar,
        (NewApisixRouteLister a b c).V2beta2 ns name = (some ar, none) ∧
        ar.GroupVersion = ApisixV2beta2 ∧ ar.V2beta2 = .ret p)) ∧
    ((∀ a1 c1, (NewApisixRouteLister a1 b c1).V2beta3 ns name =
        (NewApisixRouteLister a b c).V2beta3 ns name) ∧
      (∀ p err, b ns name = (p, some err) →
        (NewApisixRouteLister a b c).V2beta3 ns name = (none, some err)) ∧
      (∀ p, b ns name = (p, none) → ∃ ar,
        (NewApisixRouteLister a b c).V2beta3 ns name = (some ar, none) ∧
        ar.GroupVersion = ApisixV2beta3 ∧ ar.V2beta3 = .ret p)) ∧
    ((∀ a1 b1, (NewApisixRouteLister a1 b1 c).V2 ns name =
        (NewApisixRouteLister a b c).V2 ns name) ∧
      (∀ p err, c ns name = (p, some err) →
        (NewApisixRouteLister a b c).V2 ns name = (none, some err)) ∧
      (∀ p, c ns name = (p, none) → ∃ ar,
        (NewApisixRouteLister a b c).V2 ns name = (some ar, none) ∧
        ar.GroupVersion = ApisixV2 ∧ ar.V2 = .ret p)) := by
  refine ⟨⟨fun _ _ => rfl, fun p err h => ?_, fun p h => ?_⟩,
    ⟨fun _ _ => rfl, fun p err h => ?_, fun p h => ?_⟩,
    ⟨fun _ _ => rfl, fun p err h => ?_, fun p h => ?_⟩⟩
  · simp [apisixRouteLister.V2beta2, NewApisixRouteLister, h]
  · exact ⟨{ groupVersion := ApisixV2beta2, v2beta2 := p },
      by simp [apisixRouteLister.V2beta2, NewApisixRouteLister, h], rfl,
      by simp [apisixRoute.V2beta2]⟩
  · simp [apisixRouteLister.V2beta3, NewApisixRouteLister, h]
  · exact ⟨{ groupVersion := ApisixV2beta3, v2beta3 := p },
      by simp [apisixRouteLister.V2beta3, NewApisixRouteLister, h], rfl,
      by simp [apisixRoute.V2beta3]⟩
  · simp [apisixRouteLister.V2, NewApisixRouteLister, h]
  · exact ⟨{ groupVersion := ApisixV2, v2 := p },
      by simp [apisixRouteLister.V2, NewApisixRouteLister, h], rfl,
      by simp [apisixRoute.V2]⟩

/-- Witness of C5: the v2beta2 index reports an error and the v2beta3 index finds an
object. -/
theorem lister_lookup_witness :
    (NewApisixRouteLister (fun _ _ => (none, some ⟨"not found"⟩))
        (fun _ _ => (some ⟨"42", "spec"⟩, none))
        (fun _ _ => (none, some ⟨"not found"⟩))).V2beta2 "default" "r1" =
      (none, some ⟨"not found"⟩) ∧
    ∃ ar, (NewApisixRouteLister (fun _ _ => (none, some ⟨"not found"⟩))
        (fun _ _ => (some ⟨"42", "spec"⟩, none))
        (fun _ _ => (none, some ⟨"not found"⟩))).V2beta3 "default" "r1" = (some ar, none) ∧
      ar.GroupVersion = ApisixV2beta3 ∧ ar.V2beta3 = .ret (some ⟨"42", "spec"⟩) :=
  have h := lister_lookup (fun _ _ => (none, some ⟨"not found"⟩))
    (fun _ _ => (some ⟨"42", "spec"⟩, none)) (fun _ _ => (none, some ⟨"not found"⟩))
    "default" "r1"
  ⟨h.1.2.1 none ⟨"not found"⟩ rfl, h.2.1.2.2 (some ⟨"42", "spec"⟩) rfl⟩

/-- C6: `MustNewApisixRoute` and `NewApisixRoute` agree on every input.  The first panics
exactly when the second returns an error; when the second succeeds the first returns the
same envelope (same tag, same wrapped object); for an unsupported type the second returns
no envelope and the first panics. -/
theorem MustNewApisixRoute_agrees (obj : RuntimeObject) :
    ((MustNewApisixRoute obj).panics = true ↔ (NewApisixRoute obj).2 ≠ none) ∧
    ((NewApisixRoute obj).2 = none →
      ∃ ar, NewApisixRoute obj = (some ar, none) ∧ MustNewApisixRoute obj = .ret ar) ∧
    (obj.supported = false →
      (NewApisixRoute obj).1 = none ∧ (MustNewApisixRoute obj).panics = true) := by
  cases obj <;>
    simp [MustNewApisixRoute, NewApisixRoute, Outcome.panics, RuntimeObject.supported]

/-- Witness of C6 at a v2beta3 object and at a value of another type. -/
theorem MustNewApisixRoute_agrees_witness :
    (∃ ar, NewApisixRoute (.v2beta3 (some ⟨"3", "spec"⟩)) = (some ar, none) ∧
      MustNewApisixRoute (.v2beta3 (some ⟨"3", "spec"⟩)) = .ret ar) ∧
    ((NewApisixRoute (.other "string")).1 = none ∧
      (MustNewApisixRoute (.other "string")).panics = true) :=
  ⟨(MustNewApisixRoute_agrees (.v2beta3 (some ⟨"3", "spec"⟩))).2.1 rfl,
    (MustNewApisixRoute_agrees (.other "string")).2.2 rfl⟩

/-- C14: raw index access.  The lister built by `NewApisixRouteLister a b c` returns `b`
from `V2beta3Lister` and `c` from `V2Lister`. -/
theorem raw_index_access (a : Index ApisixRouteV2beta2) (b : Index ApisixRouteV2beta3)
    (c : Index ApisixRouteV2) :
    (NewApisixRouteLister a b c).V2beta3Lister = b ∧
    (NewApisixRouteLister a b c).V2Lister = c :=
  ⟨rfl, rfl⟩

/-- C17, the code at the failing input: on an envelope tagged v2 the accessor `V2beta2`
panics with the message of `V2beta3`, which does not mention apisix.apache.org/v2beta2,
while `V2beta3` and `V2` panic on a foreign tag with messages mentioning their own
version. -/
theorem V2beta2_mismatch_message :
    ({ groupVersion := ApisixV2, v2 := some ⟨"7", "spec"⟩ } : apisixRoute).V2beta2 =
      .panic "not a apisix.apache.org/v2beta3 route" ∧
    mentions "not a apisix.apache.org/v2beta3 route" "apisix.apache.org/v2beta2" = false ∧
    ({ groupVersion := ApisixV2, v2 := some ⟨"7", "spec"⟩ } : apisixRoute).V2beta3 =
      .panic "not a apisix.apache.org/v2beta3 route" ∧
    mentions "not a apisix.apache.org/v2beta3 route" "apisix.apache.org/v2beta3" = true ∧
    ({ groupVersion := ApisixV2beta3, v2beta3 := some ⟨"7", "spec"⟩ } : apisixRoute).V2 =
      .panic "not a apisix.apache.org/v2 route" ∧
    mentions "not a apisix.apache.org/v2 route" "apisix.apache.org/v2" = true := by
  decide

end Kube

/-! # Theorems about the fake admin server -/

namespace Apisix

/-- The order used by `sortStrings` is total. -/
theorem dataLE_total (a b : String) : a.data ≤ b.data ∨ b.data ≤ a.data :=
  le_total a.data b.data

/-- The order used by `sortStrings` is transitive. -/
theorem dataLE_trans (a b c : String) (h1 : a.data ≤ b.data) (h2 : b.data ≤ c.data) :
    a.data ≤ c.data :=
  le_trans h1 h2

/-- `sortStrings` returns a permutation of its input. -/
theorem sortStrings_perm (keys : List String) : (sortStrings keys).Perm keys :=
  List.perm_insertionSort _ keys

/-- `sortStrings` returns a list in ascending order. -/
theorem sortStrings_sorted (keys : List String) :
    (sortStrings keys).Pairwise (fun a b => a.data ≤ b.data) := by
  haveI : IsTotal String (fun a b => a.data ≤ b.data) := ⟨dataLE_total⟩
  haveI : IsTrans String (fun a b => a.data ≤ b.data) := ⟨dataLE_trans⟩
  exact List.sorted_insertionSort _ keys

/-- On a list without duplicates `sortStrings` returns a strictly ascending list. -/
theorem sortStrings_strict (keys : List String) (hnd : keys.Nodup) :
    (sortStrings keys).Pairwise (fun a b => a < b) := by
  have hs := sortStrings_sorted keys
  have hn : (sortStrings keys).Nodup := (sortStrings_perm keys).nodup_iff.mpr hnd
  have hboth := hs.and hn
  refine hboth.imp ?_
  intro a b hab
  rw [String.lt_iff_toList_lt]
  refine lt_of_le_of_ne hab.1 ?_
  intro he
  exact hab.2 (String.ext he)

/-- `splitChars` never returns the empty list. -/
theorem splitChars_ne_nil (sep : Char) (l : List Char) : splitChars sep l ≠ [] := by
  induction l with
  | nil => simp [splitChars]
  | cons c cs ih =>
    unfold splitChars
    split
    · simp
    · split <;> simp

/-- A list without the separator is its own single segment. -/
theorem splitChars_of_not_mem (sep : Char) (l : List Char) (h : sep ∉ l) :
    splitChars sep l = [l] := by
  induction l with
  | nil => rfl
  | cons c cs ih =>
    have hc : c ≠ sep := fun e => h (by simp [e])
    have hcs : sep ∉ cs := fun e => h (by simp [e])
    simp [splitChars, hc, ih hcs]

/-- Splitting distributes over a separator in the middle. -/
theorem splitChars_append_sep (sep : Char) (a b : List Char) :
    splitChars sep (a ++ sep :: b) = splitChars sep a ++ splitChars sep b := by
  induction a with
  | nil => simp [splitChars]
  | cons c cs ih =>
    by_cases hc : c = sep
    · simp [splitChars, hc, ← ih]
    · cases hs : splitChars sep cs with
      | nil => exact absurd hs (splitChars_ne_nil sep cs)
      | cons seg rest => simp [splitChars, hc, ih, hs]

/-- `Split` never returns an empty slice, so a handler may index its last element. -/
theorem Split_ne_nil (s : String) (sep : Char) : Split s sep ≠ [] := by
  simp [Split, splitChars_ne_nil]

/-- The last segment of `pre ++ "/" ++ id` is `id` when `id` has no slash. -/
theorem Split_getLast (pre : List Char) (id : String) (hid : '/' ∉ id.data) :
    (Split ⟨pre ++ '/' :: id.data⟩ '/').getLastD "" = id := by
  have h : Split ⟨pre ++ '/' :: id.data⟩ '/' = (splitChars '/' pre).map String.mk ++ [id] := by
    simp [Split, splitChars_append_sep, splitChars_of_not_mem _ _ hid]
  rw [h, List.getLastD_eq_getLast?, List.getLast?_append]
  simp

/-- A path below the collection has the collection path as a prefix. -/
theorem HasPrefix_item_path (id : String) :
    HasPrefix ("/apisix/admin/plugin_configs/" ++ id) "/apisix/admin/plugin_configs" = true := by
  unfold HasPrefix
  rw [List.isPrefixOf_iff_prefix, String.data_append]
  exact ⟨'/' :: id.data, rfl⟩

/-- Trimming the collection path and the slash from an item path leaves the identifier. -/
theorem TrimPrefix_item_path (id : String) :
    TrimPrefix ("/apisix/admin/plugin_configs/" ++ id) "/apisix/admin/plugin_configs/" = id := by
  have hp : HasPrefix ("/apisix/admin/plugin_configs/" ++ id) "/apisix/admin/plugin_configs/"
      = true := by
    unfold HasPrefix
    rw [List.isPrefixOf_iff_prefix, String.data_append]
    exact ⟨id.data, rfl⟩
  unfold TrimPrefix
  rw [if_pos hp, String.data_append, List.drop_left]

/-- The last path segment of an item path is the identifier when it has no slash. -/
theorem Split_item_path (id : String) (hid : '/' ∉ id.data) :
    (Split ("/apisix/admin/plugin_configs/" ++ id) '/').getLastD "" = id := by
  have h := Split_getLast "/apisix/admin/plugin_configs".data id hid
  have he : ("/apisix/admin/plugin_configs/" ++ id : String) =
      ⟨"/apisix/admin/plugin_configs".data ++ '/' :: id.data⟩ := by
    apply String.ext
    rw [String.data_append]
    rfl
  rw [he]
  exact h

/-- The number of items of a list response is the number of entries of the map. -/
theorem items_length (srv : fakeAPISIXPluginConfigSrv) :
    srv.items.length = srv.pluginConfig.entries.length := by
  simp [fakeAPISIXPluginConfigSrv.items, (sortStrings_perm _).length_eq, AList.keys, List.keys]

/-- An item is listed exactly when the map holds its value under its key. -/
theorem mem_items (srv : fakeAPISIXPluginConfigSrv) (k v : String) :
    (⟨k, v⟩ : fakeItem) ∈ srv.items ↔ srv.pluginConfig.lookup k = some v := by
  simp only [fakeAPISIXPluginConfigSrv.items, fakeAPISIXPluginConfigSrv.get, List.mem_map,
    (sortStrings_perm _).mem_iff, ← AList.mem_keys, ← AList.lookup_isSome]
  constructor
  · rintro ⟨key, hk, he⟩
    simp only [fakeItem.mk.injEq] at he
    obtain ⟨rfl, rfl⟩ := he
    cases hl : AList.lookup key srv.pluginConfig with
    | none => simp [hl] at hk
    | some w => simp
  · intro h
    exact ⟨k, by simp [h], by simp [h]⟩

/-- The items of a list response are in strictly ascending order of key. -/
theorem items_sorted (srv : fakeAPISIXPluginConfigSrv) :
    srv.items.Pairwise (fun x y => x.Key < y.Key) := by
  unfold fakeAPISIXPluginConfigSrv.items
  rw [List.pairwise_map]
  exact sortStrings_strict _ srv.pluginConfig.keys_nodup

/-- The values of a store are valid JSON exactly when every looked-up value is. -/
theorem valuesValid_iff (srv : fakeAPISIXPluginConfigSrv) :
    srv.valuesValid = true ↔
      ∀ k v, srv.pluginConfig.lookup k = some v → jsonValid v = true := by
  unfold fakeAPISIXPluginConfigSrv.valuesValid
  rw [List.all_eq_true]
  constructor
  · intro h k v hl
    have hmem : (⟨k, v⟩ : Sigma fun _ : String => String) ∈ srv.pluginConfig.entries :=
      AList.mem_lookup_iff.mp (by rw [hl]; exact rfl)
    exact h _ hmem
  · rintro h ⟨k, v⟩ hmem
    have hl : v ∈ srv.pluginConfig.lookup k := AList.mem_lookup_iff.mpr hmem
    exact h k v hl

/-- In a store with valid values every listed item carries valid JSON. -/
theorem items_all_valid (srv : fakeAPISIXPluginConfigSrv) (h : srv.valuesValid = true) :
    srv.items.all (fun item => jsonValid item.Value) = true := by
  rw [List.all_eq_true]
  intro item hitem
  exact (valuesValid_iff srv).mp h item.Key item.Value ((mem_items srv _ _).mp hitem)

/-- Storing a valid document keeps the values of the store valid. -/
theorem valuesValid_insert (srv : fakeAPISIXPluginConfigSrv) (key doc : String)
    (h : srv.valuesValid = true) (hdoc : jsonValid doc = true) :
    ({ pluginConfig := srv.pluginConfig.insert key doc } :
      fakeAPISIXPluginConfigSrv).valuesValid = true := by
  rw [valuesValid_iff] at h ⊢
  intro k v hl
  by_cases hk : k = key
  · subst hk
    rw [AList.lookup_insert] at hl
    rw [← Option.some.inj hl]
    exact hdoc
  · rw [AList.lookup_insert_ne hk] at hl
    exact h k v hl

/-- Deleting an entry keeps the values of the store valid. -/
theorem valuesValid_erase (srv : fakeAPISIXPluginConfigSrv) (key : String)
    (h : srv.valuesValid = true) :
    ({ pluginConfig := srv.pluginConfig.erase key } :
      fakeAPISIXPluginConfigSrv).valuesValid = true := by
  rw [valuesValid_iff] at h ⊢
  intro k v hl
  by_cases hk : k = key
  · subst hk
    rw [AList.lookup_erase] at hl
    exact absurd hl (by simp)
  · rw [AList.lookup_erase_ne hk] at hl
    exact h k v hl

/-- The response to a GET on the collection path. -/
theorem ServeHTTP_GET (srv : fakeAPISIXPluginConfigSrv) (body : String) :
    srv.ServeHTTP ⟨"GET", "/apisix/admin/plugin_configs", body⟩ =
      (srv, { code := some 200, body := [marshalListResp
        { Count := Itoa srv.items.length
          Node := { Key := "/apisix/plugin_configs", Items := srv.items } }] }) := by
  have hp : HasPrefix "/apisix/admin/plugin_configs" "/apisix/admin/plugin_configs" = true := by
    decide
  simp [fakeAPISIXPluginConfigSrv.ServeHTTP, hp, ResponseWriter.WriteHeader,
    ResponseWriter.Write, items_length]

/-- The response to a GET on the collection path when every stored value is valid JSON. -/
theorem ServeHTTP_GET_valid (srv : fakeAPISIXPluginConfigSrv) (body : String)
    (h : srv.valuesValid = true) :
    srv.ServeHTTP ⟨"GET", "/apisix/admin/plugin_configs", body⟩ =
      (srv, { code := some 200, body := [.listResp
        { Count := Itoa srv.items.length
          Node := { Key := "/apisix/plugin_configs", Items := srv.items } }] }) := by
  rw [ServeHTTP_GET]
  simp only [marshalListResp, items_all_valid srv h, if_true]

/-- The effect of a PUT on an item path whose identifier has no slash. -/
theorem ServeHTTP_PUT (srv : fakeAPISIXPluginConfigSrv) (id doc : String)
    (hid : '/' ∉ id.data) :
    srv.ServeHTTP ⟨"PUT", "/apisix/admin/plugin_configs/" ++ id, doc⟩ =
      ({ pluginConfig := srv.pluginConfig.insert ("/apisix/plugin_configs/" ++ id) doc },
        { code := some 201, body := [marshalCreateResp
          { Action := "create", Node := ⟨"/apisix/plugin_configs/" ++ id, doc⟩ }] }) := by
  have h := Split_item_path id hid
  rw [List.getLastD_eq_getLast?] at h
  simp [fakeAPISIXPluginConfigSrv.ServeHTTP, HasPrefix_item_path, h,
    ResponseWriter.WriteHeader, ResponseWriter.Write]

/-- The effect of a DELETE on an item path. -/
theorem ServeHTTP_DELETE (srv : fakeAPISIXPluginConfigSrv) (id body : String) :
    srv.ServeHTTP ⟨"DELETE", "/apisix/admin/plugin_configs/" ++ id, body⟩ =
      if (srv.pluginConfig.lookup ("/apisix/plugin_configs/" ++ id)).isSome then
        ({ pluginConfig := srv.pluginConfig.erase ("/apisix/plugin_configs/" ++ id) },
          { code := some 200, body := [] })
      else (srv, { code := some 404, body := [] }) := by
  unfold fakeAPISIXPluginConfigSrv.ServeHTTP
  simp only [HasPrefix_item_path]
  rw [TrimPrefix_item_path]
  by_cases h : (srv.pluginConfig.lookup ("/apisix/plugin_configs/" ++ id)).isSome = true <;>
    simp [ResponseWriter.WriteHeader, h]

/-- C7, counterexample: after a PUT of the body doc, which is not JSON, to the path of id
"1" on the empty store, the store holds that entry, but the GET on the collection writes
no bytes: `json.Marshal` fails on the raw value and its error is dropped, so the response
does not contain the entry of the store. -/
theorem list_response_counterexample :
    (runFakePluginConfigSrv.ServeHTTP
        ⟨"PUT", "/apisix/admin/plugin_configs/1", "doc"⟩).1.pluginConfig.lookup
      "/apisix/plugin_configs/1" = some "doc" ∧
    ((runFakePluginConfigSrv.ServeHTTP
        ⟨"PUT", "/apisix/admin/plugin_configs/1", "doc"⟩).1.ServeHTTP
        ⟨"GET", "/apisix/admin/plugin_configs", ""⟩).2 =
      { code := some 200, body := [.raw ""] } := by
  decide

/-- C7, amended: list ordering.  For every state of the store whose values are all valid
JSON, a GET on the collection answers 200 with a list response whose items are exactly the
entries of the store (an item with key `k` and value `v` is listed if and only if the store
holds `v` under `k`), in strictly ascending order of key, hence one item per key, and whose
count is the decimal rendering of the number of items.  Entries created with JSON bodies as
id "2" and then id "1" are listed as "1", "2". -/
theorem list_response_ordering (srv : fakeAPISIXPluginConfigSrv) (body : String)
    (hvalid : srv.valuesValid = true) :
    (∃ items : List fakeItem,
      srv.ServeHTTP ⟨"GET", "/apisix/admin/plugin_configs", body⟩ =
        (srv, { code := some 200, body := [.listResp
          { Count := Itoa items.length
            Node := { Key := "/apisix/plugin_configs", Items := items } }] }) ∧
      items.Pairwise (fun x y => x.Key < y.Key) ∧
      (∀ k v, (⟨k, v⟩ : fakeItem) ∈ items ↔ srv.pluginConfig.lookup k = some v) ∧
      items.length = srv.pluginConfig.entries.length) ∧
    (((runFakePluginConfigSrv.ServeHTTP
          ⟨"PUT", "/apisix/admin/plugin_configs/2", "\x7b\"abc2\":\"123\"\x7d"⟩).1.ServeHTTP
          ⟨"PUT", "/apisix/admin/plugin_configs/1", "\x7b\"abc\":\"123\"\x7d"⟩).1.ServeHTTP
          ⟨"GET", "/apisix/admin/plugin_configs", ""⟩).2 =
      { code := some 200, body := [.listResp
        { Count := "2"
          Node := { Key := "/apisix/plugin_configs",
                    Items := [⟨"/apisix/plugin_configs/1", "\x7b\"abc\":\"123\"\x7d"⟩,
                      ⟨"/apisix/plugin_configs/2", "\x7b\"abc2\":\"123\"\x7d"⟩] } }] } := by
  refine ⟨⟨srv.items, ServeHTTP_GET_valid srv body hvalid, items_sorted srv, mem_items srv,
    items_length srv⟩, ?_⟩
  decide

/-- Witness of the amended C7: the store holding ids "1" and "2" with JSON values. -/
theorem list_response_ordering_witness :
    ∃ items : List fakeItem,
      ((runFakePluginConfigSrv.ServeHTTP
          ⟨"PUT", "/apisix/admin/plugin_configs/2", "\x7b\"abc2\":\"123\"\x7d"⟩).1.ServeHTTP
          ⟨"PUT", "/apisix/admin/plugin_configs/1", "\x7b\"abc\":\"123\"\x7d"⟩).1.ServeHTTP
          ⟨"GET", "/apisix/admin/plugin_configs", ""⟩ =
        (((runFakePluginConfigSrv.ServeHTTP
          ⟨"PUT", "/apisix/admin/plugin_configs/2", "\x7b\"abc2\":\"123\"\x7d"⟩).1.ServeHTTP
          ⟨"PUT", "/apisix/admin/plugin_configs/1", "\x7b\"abc\":\"123\"\x7d"⟩).1,
          { code := some 200, body := [.listResp
            { Count := Itoa items.length
              Node := { Key := "/apisix/plugin_configs", Items := items } }] }) ∧
      items.Pairwise (fun x y => x.Key < y.Key) :=
  have h := (list_response_ordering ((runFakePluginConfigSrv.ServeHTTP
      ⟨"PUT", "/apisix/admin/plugin_configs/2", "\x7b\"abc2\":\"123\"\x7d"⟩).1.ServeHTTP
      ⟨"PUT", "/apisix/admin/plugin_configs/1", "\x7b\"abc\":\"123\"\x7d"⟩).1 ""
    (by decide)).1
  h.imp fun _ hi => ⟨hi.1, hi.2.1⟩

/-- C8, counterexample: a PUT of the body doc, which is not JSON, to the path of id "1" on
the empty store answers 201 but writes no bytes, so no node with the key and the document
is answered, and the following GET writes no bytes either, so the entry is not listed. -/
theorem create_then_list_counterexample :
    (runFakePluginConfigSrv.ServeHTTP ⟨"PUT", "/apisix/admin/plugin_configs/1", "doc"⟩).2 =
      { code := some 201, body := [.raw ""] } ∧
    ((runFakePluginConfigSrv.ServeHTTP
        ⟨"PUT", "/apisix/admin/plugin_configs/1", "doc"⟩).1.ServeHTTP
        ⟨"GET", "/apisix/admin/plugin_configs", ""⟩).2 =
      { code := some 200, body := [.raw ""] } := by
  decide

/-- C8, amended: create/list round trip.  For every store whose values are all valid JSON,
every identifier without a slash and every valid JSON document, a PUT to the item path
answers 201 with action "create" and a node carrying the key "/apisix/plugin_configs/"
followed by the identifier and the document; a following GET lists an item with that key
and that document, whether or not the key existed before; the stored keys are the same for
any other document sent to the same path. -/
theorem create_then_list (srv : fakeAPISIXPluginConfigSrv) (id doc : String)
    (hid : '/' ∉ id.data) (hvalid : srv.valuesValid = true) (hdoc : jsonValid doc = true) :
    (srv.ServeHTTP ⟨"PUT", "/apisix/admin/plugin_configs/" ++ id, doc⟩).2 =
      { code := some 201, body := [.createResp
        { Action := "create", Node := ⟨"/apisix/plugin_configs/" ++ id, doc⟩ }] } ∧
    (∃ items : List fakeItem,
      ((srv.ServeHTTP ⟨"PUT", "/apisix/admin/plugin_configs/" ++ id, doc⟩).1.ServeHTTP
          ⟨"GET", "/apisix/admin/plugin_configs", ""⟩).2 =
        { code := some 200, body := [.listResp
          { Count := Itoa items.length
            Node := { Key := "/apisix/plugin_configs", Items := items } }] } ∧
      (⟨"/apisix/plugin_configs/" ++ id, doc⟩ : fakeItem) ∈ items) ∧
    (∀ doc2 : String,
      (srv.ServeHTTP ⟨"PUT", "/apisix/admin/plugin_configs/" ++ id, doc2⟩).1.pluginConfig.keys =
        (srv.ServeHTTP ⟨"PUT", "/apisix/admin/plugin_configs/" ++ id, doc⟩).1.pluginConfig.keys)
    := by
  have hput := ServeHTTP_PUT srv id doc hid
  refine ⟨?_, ?_, ?_⟩
  · rw [hput]
    simp only [marshalCreateResp, hdoc, if_true]
  · rw [hput]
    refine ⟨_, by rw [ServeHTTP_GET_valid _ _ (valuesValid_insert srv _ doc hvalid hdoc)], ?_⟩
    rw [mem_items]
    exact AList.lookup_insert _
  · intro doc2
    rw [hput, ServeHTTP_PUT srv id doc2 hid]
    simp [AList.keys_insert]

/-- Witness of the amended C8: creating id "1" with a JSON document on the empty store. -/
theorem create_then_list_witness :
    (runFakePluginConfigSrv.ServeHTTP
        ⟨"PUT", "/apisix/admin/plugin_configs/" ++ "1", "\x7b\"abc\":\"123\"\x7d"⟩).2 =
      { code := some 201, body := [.createResp
        { Action := "create",
          Node := ⟨"/apisix/plugin_configs/" ++ "1", "\x7b\"abc\":\"123\"\x7d"⟩ }] } :=
  (create_then_list runFakePluginConfigSrv "1" "\x7b\"abc\":\"123\"\x7d" (by decide)
    (by decide) (by decide)).1

/-- The number of entries of a map is the number of its keys. -/
theorem entries_length_eq_keys (m : AList (fun _ : String => String)) :
    m.entries.length = m.keys.length := by
  simp [AList.keys, List.keys]

/-- Erasing a present key removes exactly one entry. -/
theorem erase_entries_length (m : AList (fun _ : String => String)) (key : String)
    (h : (m.lookup key).isSome = true) :
    (m.erase key).entries.length + 1 = m.entries.length := by
  have hmem : key ∈ m.keys := AList.mem_keys.mp (AList.lookup_isSome.mp h)
  rw [entries_length_eq_keys, entries_length_eq_keys, AList.keys_erase,
    List.length_erase_of_mem hmem]
  have hpos : 0 < m.keys.length := List.length_pos_of_mem hmem
  omega

/-- C9, counterexample: in the store holding the JSON document \x7b\x7d under id "1" and
the body second, which is not JSON, under id "2", the key of id "1" is present and a DELETE
of id "1" answers 200, but the following GET writes no bytes: the entry of id "2" is still
in the store and is not listed, and no count is reported. -/
theorem delete_removes_counterexample :
    (((runFakePluginConfigSrv.ServeHTTP
        ⟨"PUT", "/apisix/admin/plugin_configs/1", "\x7b\x7d"⟩).1.ServeHTTP
        ⟨"PUT", "/apisix/admin/plugin_configs/2", "second"⟩).1.ServeHTTP
        ⟨"DELETE", "/apisix/admin/plugin_configs/1", ""⟩).2 =
      { code := some 200, body := [] } ∧
    (((runFakePluginConfigSrv.ServeHTTP
        ⟨"PUT", "/apisix/admin/plugin_configs/1", "\x7b\x7d"⟩).1.ServeHTTP
        ⟨"PUT", "/apisix/admin/plugin_configs/2", "second"⟩).1.ServeHTTP
        ⟨"DELETE", "/apisix/admin/plugin_configs/1", ""⟩).1.pluginConfig.lookup
      "/apisix/plugin_configs/2" = some "second" ∧
    ((((runFakePluginConfigSrv.ServeHTTP
        ⟨"PUT", "/apisix/admin/plugin_configs/1", "\x7b\x7d"⟩).1.ServeHTTP
        ⟨"PUT", "/apisix/admin/plugin_configs/2", "second"⟩).1.ServeHTTP
        ⟨"DELETE", "/apisix/admin/plugin_configs/1", ""⟩).1.ServeHTTP
        ⟨"GET", "/apisix/admin/plugin_configs", ""⟩).2 =
      { code := some 200, body := [.raw ""] } := by
  decide

/-- C9, amended: delete removes.  For every store whose values are all valid JSON and every
identifier whose key is present, a DELETE to the item path answers 200; a following GET
lists no item with that key, lists every other entry exactly as the GET before the DELETE
did, and its item count is smaller by exactly one. -/
theorem delete_removes (srv : fakeAPISIXPluginConfigSrv) (id body : String)
    (hvalid : srv.valuesValid = true)
    (hpresent : (srv.pluginConfig.lookup ("/apisix/plugin_configs/" ++ id)).isSome = true) :
    (srv.ServeHTTP ⟨"DELETE", "/apisix/admin/plugin_configs/" ++ id, body⟩).2 =
      { code := some 200, body := [] } ∧
    ∃ before after : List fakeItem,
      (srv.ServeHTTP ⟨"GET", "/apisix/admin/plugin_configs", ""⟩).2 =
        { code := some 200, body := [.listResp
          { Count := Itoa before.length
            Node := { Key := "/apisix/plugin_configs", Items := before } }] } ∧
      ((srv.ServeHTTP ⟨"DELETE", "/apisix/admin/plugin_configs/" ++ id, body⟩).1.ServeHTTP
          ⟨"GET", "/apisix/admin/plugin_configs", ""⟩).2 =
        { code := some 200, body := [.listResp
          { Count := Itoa after.length
            Node := { Key := "/apisix/plugin_configs", Items := after } }] } ∧
      (∀ item ∈ after, item.Key ≠ "/apisix/plugin_configs/" ++ id) ∧
      (∀ k v, k ≠ "/apisix/plugin_configs/" ++ id →
        ((⟨k, v⟩ : fakeItem) ∈ after ↔ (⟨k, v⟩ : fakeItem) ∈ before)) ∧
      after.length + 1 = before.length := by
  have hd := ServeHTTP_DELETE srv id body
  rw [if_pos hpresent] at hd
  rw [hd]
  refine ⟨rfl, srv.items, _, by rw [ServeHTTP_GET_valid srv _ hvalid],
    by rw [ServeHTTP_GET_valid _ _ (valuesValid_erase srv _ hvalid)], ?_, ?_, ?_⟩
  · intro item hitem hkey
    have hm := (mem_items _ item.Key item.Value).mp hitem
    rw [hkey] at hm
    simp [AList.lookup_erase] at hm
  · intro k v hk
    rw [mem_items, mem_items]
    simp [AList.lookup_erase_ne hk]
  · rw [items_length, items_length]
    exact erase_entries_length _ _ hpresent

/-- Witness of the amended C9: deleting id "1" from a store holding ids "1" and "2" with
JSON values. -/
theorem delete_removes_witness :
    (((runFakePluginConfigSrv.ServeHTTP
        ⟨"PUT", "/apisix/admin/plugin_configs/1", "\x7b\"abc\":\"123\"\x7d"⟩).1.ServeHTTP
        ⟨"PUT", "/apisix/admin/plugin_configs/2", "\x7b\"abc2\":\"123\"\x7d"⟩).1.ServeHTTP
        ⟨"DELETE", "/apisix/admin/plugin_configs/" ++ "1", ""⟩).2 =
      { code := some 200, body := [] } :=
  (delete_removes ((runFakePluginConfigSrv.ServeHTTP
      ⟨"PUT", "/apisix/admin/plugin_configs/1", "\x7b\"abc\":\"123\"\x7d"⟩).1.ServeHTTP
      ⟨"PUT", "/apisix/admin/plugin_configs/2", "\x7b\"abc2\":\"123\"\x7d"⟩).1 "1" ""
    (by decide) (by decide)).1

/-- C10: delete of an absent identifier.  For every store and every identifier whose key is
not present, a DELETE to the item path answers 404 and leaves the store unchanged; after a
DELETE that found the key, a second DELETE of the same identifier answers 404 and changes
nothing. -/
theorem delete_absent_not_found (srv : fakeAPISIXPluginConfigSrv) (id body : String) :
    (srv.pluginConfig.lookup ("/apisix/plugin_configs/" ++ id) = none →
      srv.ServeHTTP ⟨"DELETE", "/apisix/admin/plugin_configs/" ++ id, body⟩ =
        (srv, { code := some 404, body := [] })) ∧
    ((srv.pluginConfig.lookup ("/apisix/plugin_configs/" ++ id)).isSome = true →
      (srv.ServeHTTP ⟨"DELETE", "/apisix/admin/plugin_configs/" ++ id, body⟩).2.code =
        some 200 ∧
      (srv.ServeHTTP ⟨"DELETE", "/apisix/admin/plugin_configs/" ++ id, body⟩).1.ServeHTTP
          ⟨"DELETE", "/apisix/admin/plugin_configs/" ++ id, body⟩ =
        ((srv.ServeHTTP ⟨"DELETE", "/apisix/admin/plugin_configs/" ++ id, body⟩).1,
          { code := some 404, body := [] })) := by
  constructor
  · intro h
    rw [ServeHTTP_DELETE, h]
    simp
  · intro h
    have hd := ServeHTTP_DELETE srv id body
    rw [if_pos h] at hd
    rw [hd]
    refine ⟨rfl, ?_⟩
    rw [ServeHTTP_DELETE]
    simp [AList.lookup_erase]

/-- Witness of C10: a DELETE on the empty store, and two DELETEs after a PUT. -/
theorem delete_absent_not_found_witness :
    runFakePluginConfigSrv.ServeHTTP ⟨"DELETE", "/apisix/admin/plugin_configs/" ++ "1", ""⟩ =
      (runFakePluginConfigSrv, { code := some 404, body := [] }) ∧
    (((runFakePluginConfigSrv.ServeHTTP
        ⟨"PUT", "/apisix/admin/plugin_configs/1", "first"⟩).1.ServeHTTP
        ⟨"DELETE", "/apisix/admin/plugin_configs/" ++ "1", ""⟩).1.ServeHTTP
        ⟨"DELETE", "/apisix/admin/plugin_configs/" ++ "1", ""⟩).2 =
      { code := some 404, body := [] } :=
  ⟨(delete_absent_not_found runFakePluginConfigSrv "1" "").1 (by decide),
    by
      have h := ((delete_absent_not_found (runFakePluginConfigSrv.ServeHTTP
        ⟨"PUT", "/apisix/admin/plugin_configs/1", "first"⟩).1 "1" "").2 (by decide)).2
      rw [h]⟩

/-- The effect of a PATCH on an item path. -/
theorem ServeHTTP_PATCH (srv : fakeAPISIXPluginConfigSrv) (id doc : String) :
    srv.ServeHTTP ⟨"PATCH", "/apisix/admin/plugin_configs/" ++ id, doc⟩ =
      if (srv.pluginConfig.lookup ("/apisix/plugin_configs/" ++ id)).isSome then
        ({ pluginConfig := srv.pluginConfig.insert ("/apisix/plugin_configs/" ++ id) doc },
          { code := some 200, body := [.raw
            ("\x7b\"action\": \"compareAndSwap\", \"node\": \x7b\"key\": \"" ++
              ("/apisix/plugin_configs/" ++ id) ++ "\", \"value\": " ++ doc ++ "\x7d\x7d")] })
      else (srv, { code := some 404, body := [] }) := by
  unfold fakeAPISIXPluginConfigSrv.ServeHTTP
  simp only [HasPrefix_item_path]
  rw [TrimPrefix_item_path]
  by_cases h : (srv.pluginConfig.lookup ("/apisix/plugin_configs/" ++ id)).isSome = true <;>
    simp [ResponseWriter.WriteHeader, ResponseWriter.Write, h]

/-- Inserting under a key that is present keeps the number of entries. -/
theorem insert_entries_length (m : AList (fun _ : String => String)) (key doc : String)
    (h : (m.lookup key).isSome = true) :
    (m.insert key doc).entries.length = m.entries.length := by
  have hmem : key ∈ m.keys := AList.mem_keys.mp (AList.lookup_isSome.mp h)
  rw [entries_length_eq_keys, entries_length_eq_keys, AList.keys_insert, List.length_cons,
    List.length_erase_of_mem hmem]
  have hpos : 0 < m.keys.length := List.length_pos_of_mem hmem
  omega

/-- C11, counterexample: in the store holding the JSON document \x7b\x7d under id "2", a
PATCH of the body new, which is not JSON, to the path of id "2" answers 200 and stores the
body, but the following GET writes no bytes, so it does not report the body as the value
of that key. -/
theorem update_full_replace_counterexample :
    ((runFakePluginConfigSrv.ServeHTTP
        ⟨"PUT", "/apisix/admin/plugin_configs/2", "\x7b\x7d"⟩).1.ServeHTTP
        ⟨"PATCH", "/apisix/admin/plugin_configs/2", "new"⟩).2.code = some 200 ∧
    ((runFakePluginConfigSrv.ServeHTTP
        ⟨"PUT", "/apisix/admin/plugin_configs/2", "\x7b\x7d"⟩).1.ServeHTTP
        ⟨"PATCH", "/apisix/admin/plugin_configs/2", "new"⟩).1.pluginConfig.lookup
      "/apisix/plugin_configs/2" = some "new" ∧
    (((runFakePluginConfigSrv.ServeHTTP
        ⟨"PUT", "/apisix/admin/plugin_configs/2", "\x7b\x7d"⟩).1.ServeHTTP
        ⟨"PATCH", "/apisix/admin/plugin_configs/2", "new"⟩).1.ServeHTTP
        ⟨"GET", "/apisix/admin/plugin_configs", ""⟩).2 =
      { code := some 200, body := [.raw ""] } := by
  decide

/-- C11, amended: update is a full replace.  For every store whose values are all valid
JSON, every identifier whose key is present and every valid JSON document, a PATCH to the
item path answers 200 with the text of a write response whose action is "compareAndSwap"
and whose node carries the key and the document; a following GET lists that key with
exactly the document as value, lists every other entry as before, and lists the same number
of items, so the set of keys is unchanged. -/
theorem update_full_replace (srv : fakeAPISIXPluginConfigSrv) (id doc : String)
    (hvalid : srv.valuesValid = true) (hdoc : jsonValid doc = true)
    (hpresent : (srv.pluginConfig.lookup ("/apisix/plugin_configs/" ++ id)).isSome = true) :
    (srv.ServeHTTP ⟨"PATCH", "/apisix/admin/plugin_configs/" ++ id, doc⟩).2 =
      { code := some 200, body := [.raw
        ("\x7b\"action\": \"compareAndSwap\", \"node\": \x7b\"key\": \"" ++
          ("/apisix/plugin_configs/" ++ id) ++ "\", \"value\": " ++ doc ++ "\x7d\x7d")] } ∧
    ∃ before after : List fakeItem,
      (srv.ServeHTTP ⟨"GET", "/apisix/admin/plugin_configs", ""⟩).2 =
        { code := some 200, body := [.listResp
          { Count := Itoa before.length
            Node := { Key := "/apisix/plugin_configs", Items := before } }] } ∧
      ((srv.ServeHTTP ⟨"PATCH", "/apisix/admin/plugin_configs/" ++ id, doc⟩).1.ServeHTTP
          ⟨"GET", "/apisix/admin/plugin_configs", ""⟩).2 =
        { code := some 200, body := [.listResp
          { Count := Itoa after.length
            Node := { Key := "/apisix/plugin_configs", Items := after } }] } ∧
      (∀ v, (⟨"/apisix/plugin_configs/" ++ id, v⟩ : fakeItem) ∈ after ↔ v = doc) ∧
      (∀ k v, k ≠ "/apisix/plugin_configs/" ++ id →
        ((⟨k, v⟩ : fakeItem) ∈ after ↔ (⟨k, v⟩ : fakeItem) ∈ before)) ∧
      (∀ k, (∃ v, (⟨k, v⟩ : fakeItem) ∈ after) ↔ ∃ v, (⟨k, v⟩ : fakeItem) ∈ before) ∧
      after.length = before.length := by
  have hp := ServeHTTP_PATCH srv id doc
  rw [if_pos hpresent] at hp
  rw [hp]
  refine ⟨rfl, srv.items, _, by rw [ServeHTTP_GET_valid srv _ hvalid],
    by rw [ServeHTTP_GET_valid _ _ (valuesValid_insert srv _ doc hvalid hdoc)], ?_, ?_, ?_, ?_⟩
  · intro v
    rw [mem_items]
    simp only [AList.lookup_insert, Option.some.injEq]
    exact eq_comm
  · intro k v hk
    rw [mem_items, mem_items]
    simp [AList.lookup_insert_ne hk]
  · intro k
    simp only [mem_items]
    by_cases hk : k = "/apisix/plugin_configs/" ++ id
    · subst hk
      simp only [AList.lookup_insert, Option.some.injEq, exists_eq', true_iff]
      exact Option.isSome_iff_exists.mp hpresent
    · simp [AList.lookup_insert_ne hk]
  · rw [items_length, items_length]
    exact insert_entries_length _ _ _ hpresent

/-- Witness of the amended C11: updating id "2" with a JSON document after it was
created with one. -/
theorem update_full_replace_witness :
    ((runFakePluginConfigSrv.ServeHTTP
        ⟨"PUT", "/apisix/admin/plugin_configs/2", "\x7b\"abc2\":\"123\"\x7d"⟩).1.ServeHTTP
        ⟨"PATCH", "/apisix/admin/plugin_configs/" ++ "2", "\x7b\"abc2\":\"456\"\x7d"⟩).2 =
      { code := some 200, body := [.raw
        ("\x7b\"action\": \"compareAndSwap\", \"node\": \x7b\"key\": \"" ++
          ("/apisix/plugin_configs/" ++ "2") ++ "\", \"value\": " ++
          "\x7b\"abc2\":\"456\"\x7d" ++ "\x7d\x7d")] } :=
  (update_full_replace (runFakePluginConfigSrv.ServeHTTP
    ⟨"PUT", "/apisix/admin/plugin_configs/2", "\x7b\"abc2\":\"123\"\x7d"⟩).1 "2"
    "\x7b\"abc2\":\"456\"\x7d" (by decide) (by decide) (by decide)).1

/-- C12: update never creates.  For every store, every identifier whose key is not present
and every document, a PATCH to the item path answers 404, writes no response body and
leaves the store unchanged, so no entry for the identifier appears. -/
theorem update_never_creates (srv : fakeAPISIXPluginConfigSrv) (id doc : String)
    (habsent : srv.pluginConfig.lookup ("/apisix/plugin_configs/" ++ id) = none) :
    srv.ServeHTTP ⟨"PATCH", "/apisix/admin/plugin_configs/" ++ id, doc⟩ =
      (srv, { code := some 404, body := [] }) ∧
    (srv.ServeHTTP ⟨"PATCH", "/apisix/admin/plugin_configs/" ++ id, doc⟩).1.pluginConfig.lookup
      ("/apisix/plugin_configs/" ++ id) = none := by
  have hp := ServeHTTP_PATCH srv id doc
  rw [habsent] at hp
  simp only [Option.isSome_none, Bool.false_eq_true, if_false] at hp
  rw [hp]
  exact ⟨rfl, habsent⟩

/-- Witness of C12: a PATCH on the empty store. -/
theorem update_never_creates_witness :
    runFakePluginConfigSrv.ServeHTTP ⟨"PATCH", "/apisix/admin/plugin_configs/" ++ "1", "doc"⟩ =
      (runFakePluginConfigSrv, { code := some 404, body := [] }) :=
  (update_never_creates runFakePluginConfigSrv "1" "doc" (by decide)).1

/-- No segment produced by `splitChars` contains the separator. -/
theorem splitChars_no_sep (sep : Char) (l : List Char) :
    ∀ seg ∈ splitChars sep l, sep ∉ seg := by
  induction l with
  | nil => simp [splitChars]
  | cons c cs ih =>
    by_cases hc : c = sep
    · intro seg hseg
      simp only [splitChars, hc, if_true, List.mem_cons] at hseg
      rcases hseg with rfl | hseg
      · simp
      · exact ih seg hseg
    · cases hs : splitChars sep cs with
      | nil => exact absurd hs (splitChars_ne_nil sep cs)
      | cons first rest =>
        rw [hs] at ih
        intro seg hseg
        simp only [splitChars, hc, if_false, hs, List.mem_cons] at hseg
        rcases hseg with rfl | hseg
        · have h1 := ih first (by simp)
          intro hmem
          rcases List.mem_cons.mp hmem with h | h
          · exact hc h.symm
          · exact h1 h
        · exact ih seg (by simp [hseg])

/-- The last path segment never contains a slash. -/
theorem Split_getLastD_no_slash (s : String) : '/' ∉ ((Split s '/').getLastD "").data := by
  have hne := Split_ne_nil s '/'
  rw [List.getLastD_eq_getLast?, List.getLast?_eq_getLast _ hne, Option.getD_some]
  have hmem : (Split s '/').getLast hne ∈ (splitChars '/' s.data).map String.mk :=
    List.getLast_mem hne
  rw [List.mem_map] at hmem
  obtain ⟨seg, hseg, he⟩ := hmem
  rw [← he]
  exact splitChars_no_sep '/' s.data seg hseg

/-- A key stored after a request was stored before it or is built from the last path
segment of the request. -/
theorem ServeHTTP_keys (srv : fakeAPISIXPluginConfigSrv) (r : Request) (k : String)
    (hk : k ∈ (srv.ServeHTTP r).1.pluginConfig.keys) :
    k ∈ srv.pluginConfig.keys ∨
      k = "/apisix/plugin_configs/" ++ (Split r.Path '/').getLastD "" := by
  unfold fakeAPISIXPluginConfigSrv.ServeHTTP at hk
  split_ifs at hk with h1 h2 h3 h4 h5 h6 h7
  · exact Or.inl hk
  · exact Or.inl hk
  · rw [h3] at h4
    exact absurd h4 (by decide)
  · rw [h3] at h5
    exact absurd h5 (by decide)
  · dsimp only at hk
    split_ifs at hk with hl
    · rw [AList.keys_erase] at hk
      exact Or.inl (List.mem_of_mem_erase hk)
    · exact Or.inl hk
  · dsimp only at hk
    rw [AList.keys_insert, List.mem_cons] at hk
    rcases hk with rfl | hk
    · exact Or.inr rfl
    · exact Or.inl (List.mem_of_mem_erase hk)
  · dsimp only at hk
    split_ifs at hk with hl
    · rw [AList.keys_insert, List.mem_cons] at hk
      rcases hk with rfl | hk
      · exact Or.inl (AList.mem_keys.mp (AList.lookup_isSome.mp hl))
      · exact Or.inl (List.mem_of_mem_erase hk)
    · exact Or.inl hk
  · exact Or.inl hk

/-- The key that a PUT stores has the form of an item key. -/
theorem itemKeyForm_put (s : String) :
    itemKeyForm ("/apisix/plugin_configs/" ++ (Split s '/').getLastD "") := by
  refine ⟨(Split s '/').getLastD "", Split_getLastD_no_slash s, ?_⟩
  have h : ("/apisix/plugin_configs/" : String) = "/apisix/plugin_configs" ++ "/" := by decide
  rw [h]

/-- The form of the stored keys is preserved by every sequence of requests. -/
theorem serveAll_keys (reqs : List Request) :
    ∀ srv : fakeAPISIXPluginConfigSrv, (∀ k ∈ srv.pluginConfig.keys, itemKeyForm k) →
      ∀ k ∈ (srv.serveAll reqs).pluginConfig.keys, itemKeyForm k := by
  induction reqs with
  | nil => intro srv h; exact h
  | cons r rest ih =>
    intro srv h
    refine ih (srv.ServeHTTP r).1 ?_
    intro k hk
    rcases ServeHTTP_keys srv r k hk with hk1 | hk1
    · exact h k hk1
    · rw [hk1]
      exact itemKeyForm_put r.Path

/-- C13: item-key invariant.  In every store reached from the empty store by a sequence of
requests of any method, path and body, every stored key, and so every item key of a list
response to a GET, is the collection key reported by that GET, a slash, and an identifier
that contains no slash; when the stored values are valid JSON the GET does answer such a
list response. -/
theorem item_key_invariant (reqs : List Request) (body : String) :
    (∀ k ∈ (runFakePluginConfigSrv.serveAll reqs).pluginConfig.keys, itemKeyForm k) ∧
    (∀ resp : fakeListResp,
      ((runFakePluginConfigSrv.serveAll reqs).ServeHTTP
          ⟨"GET", "/apisix/admin/plugin_configs", body⟩).2.body = [.listResp resp] →
        resp.Node.Key = "/apisix/plugin_configs" ∧
        ∀ item ∈ resp.Node.Items, itemKeyForm item.Key) ∧
    ((runFakePluginConfigSrv.serveAll reqs).valuesValid = true →
      ∃ items : List fakeItem,
        ((runFakePluginConfigSrv.serveAll reqs).ServeHTTP
            ⟨"GET", "/apisix/admin/plugin_configs", body⟩).2 =
          { code := some 200, body := [.listResp
            { Count := Itoa items.length
              Node := { Key := "/apisix/plugin_configs", Items := items } }] } ∧
        ∀ item ∈ items, itemKeyForm item.Key) := by
  have hkeys : ∀ k ∈ (runFakePluginConfigSrv.serveAll reqs).pluginConfig.keys,
      itemKeyForm k :=
    serveAll_keys reqs runFakePluginConfigSrv (by intro k hk; simp [runFakePluginConfigSrv] at hk)
  have hitems : ∀ item ∈ (runFakePluginConfigSrv.serveAll reqs).items,
      itemKeyForm item.Key := by
    intro item hitem
    have hm := (mem_items _ item.Key item.Value).mp hitem
    have hs : (AList.lookup item.Key
        (runFakePluginConfigSrv.serveAll reqs).pluginConfig).isSome = true := by
      rw [hm]
      rfl
    exact hkeys _ (AList.mem_keys.mp (AList.lookup_isSome.mp hs))
  refine ⟨hkeys, ?_, ?_⟩
  · intro resp hresp
    rw [ServeHTTP_GET] at hresp
    simp only [marshalListResp] at hresp
    split_ifs at hresp with hv
    · simp only [List.cons.injEq, Payload.listResp.injEq, and_true] at hresp
      rw [← hresp]
      exact ⟨rfl, hitems⟩
    · simp at hresp
  · intro hv
    exact ⟨_, by rw [ServeHTTP_GET_valid _ _ hv], hitems⟩

/-- Witness of C13: the key stored by a PUT whose path has several segments after the
collection. -/
theorem item_key_invariant_witness : itemKeyForm "/apisix/plugin_configs/b" :=
  (item_key_invariant [⟨"PUT", "/apisix/admin/plugin_configs/a/b", "doc"⟩] "").1
    "/apisix/plugin_configs/b" (by decide)

/-- C15, the code at the failing input: after a PUT to the path of identifier "a/b" on the
empty store, the only stored key is built from the last path segment "b", and a DELETE and
a PATCH sent to the same path both answer 404 and leave the entry in place. -/
theorem put_then_other_verbs_slash_id :
    ((runFakePluginConfigSrv.ServeHTTP
        ⟨"PUT", "/apisix/admin/plugin_configs/a/b", "doc"⟩).1.pluginConfig.keys =
      ["/apisix/plugin_configs/b"]) ∧
    ((runFakePluginConfigSrv.ServeHTTP
        ⟨"PUT", "/apisix/admin/plugin_configs/a/b", "doc"⟩).1.ServeHTTP
        ⟨"DELETE", "/apisix/admin/plugin_configs/a/b", ""⟩).2 =
      { code := some 404, body := [] } ∧
    ((runFakePluginConfigSrv.ServeHTTP
        ⟨"PUT", "/apisix/admin/plugin_configs/a/b", "doc"⟩).1.ServeHTTP
        ⟨"PATCH", "/apisix/admin/plugin_configs/a/b", "doc2"⟩).2 =
      { code := some 404, body := [] } ∧
    ((runFakePluginConfigSrv.ServeHTTP
        ⟨"PUT", "/apisix/admin/plugin_configs/a/b", "doc"⟩).1.ServeHTTP
        ⟨"DELETE", "/apisix/admin/plugin_configs/a/b", ""⟩).1.pluginConfig.keys =
      ["/apisix/plugin_configs/b"] := by
  decide

/-- C16: requests that cannot write.  For every store, method and body, a request whose
path does not start with "/apisix/admin/plugin_configs" answers 404 and leaves the store
unchanged, and a GET on any path that starts with it leaves the store unchanged. -/
theorem non_writing_requests (srv : fakeAPISIXPluginConfigSrv) (r : Request) :
    (HasPrefix r.Path "/apisix/admin/plugin_configs" = false →
      srv.ServeHTTP r = (srv, { code := some 404, body := [] })) ∧
    (HasPrefix r.Path "/apisix/admin/plugin_configs" = true → r.Method = "GET" →
      (srv.ServeHTTP r).1 = srv) := by
  constructor
  · intro h
    simp [fakeAPISIXPluginConfigSrv.ServeHTTP, h, ResponseWriter.WriteHeader]
  · intro h hm
    simp [fakeAPISIXPluginConfigSrv.ServeHTTP, h, hm]

/-- Witness of C16: a PUT outside the collection and a GET below it, on a store with one
entry. -/
theorem non_writing_requests_witness :
    (runFakePluginConfigSrv.ServeHTTP ⟨"PUT", "/apisix/admin/routes/1", "doc"⟩ =
      (runFakePluginConfigSrv, { code := some 404, body := [] })) ∧
    (((runFakePluginConfigSrv.ServeHTTP
        ⟨"PUT", "/apisix/admin/plugin_configs/1", "doc"⟩).1.ServeHTTP
        ⟨"GET", "/apisix/admin/plugin_configs/1", ""⟩).1 =
      (runFakePluginConfigSrv.ServeHTTP ⟨"PUT", "/apisix/admin/plugin_configs/1", "doc"⟩).1) :=
  ⟨(non_writing_requests runFakePluginConfigSrv
      ⟨"PUT", "/apisix/admin/routes/1", "doc"⟩).1 (by decide),
    (non_writing_requests (runFakePluginConfigSrv.ServeHTTP
      ⟨"PUT", "/apisix/admin/plugin_configs/1", "doc"⟩).1
      ⟨"GET", "/apisix/admin/plugin_configs/1", ""⟩).2 (by decide) rfl⟩

end Apisix
